import Mathlib

/-!
Verification development for `LitColumnsApp.cpp` (Assignment1/Project), a
Direct3D-12 scene demo.  The definitions below are a shallow embedding of the
data model and operations of that file: the symbolic scene tables
(`buildMaterials`, `buildRenderItems`), the geometry concatenation bookkeeping
(`buildShapeGeometry`), the per-frame constant-buffer update cycle
(`updateObjectCBs`, `updateMaterialCBs`), the frame-resource fence
synchronisation loop, and the orbit-camera mouse handlers.  Real-valued
quantities (matrix entries, colours, camera angles) are modelled with exact
rationals; 4x4 matrices built with the DirectXMath constructors are kept as
symbolic expressions, since their numeric contents are irrelevant to every
property proved here.
-/

set_option autoImplicit false

namespace LitColumns

/-- `const int gNumFrameResources = 3;` — LitColumnsApp.cpp line 18. -/
def gNumFrameResources : Nat := 3

/-- Symbolic 4x4 matrices, one constructor per DirectXMath matrix expression
appearing in LitColumnsApp.cpp: `MathHelper::Identity4x4()`,
`XMMatrixScaling`, `XMMatrixTranslation`,
`XMMatrixRotationX/Y(XMConvertToRadians(deg))` (argument kept in degrees), the
matrix product `*`, and `XMMatrixTranspose`.  Scalar arguments are exact
rationals standing for the float literals of the source. -/
inductive Mat4 where
  | identity4x4 : Mat4
  | scaling : ℚ → ℚ → ℚ → Mat4
  | translation : ℚ → ℚ → ℚ → Mat4
  | rotationX : ℚ → Mat4
  | rotationY : ℚ → Mat4
  | mul : Mat4 → Mat4 → Mat4
  | transpose : Mat4 → Mat4
  deriving DecidableEq

/-- Element counts of a `GeometryGenerator::MeshData` (its `Vertices.size()`
and `Indices32.size()`).  `GeometryGenerator` itself is framework code not in
the provided sources, so the counts stay abstract: every theorem about
`buildShapeGeometry` is universally quantified over them. -/
structure MeshData where
  vertexCount : Nat
  indexCount : Nat
  deriving DecidableEq

/-- `SubmeshGeometry` (d3dUtil framework type) as used by BuildShapeGeometry:
the `DrawIndexedInstanced` region of one mesh inside the concatenated
vertex/index buffers. -/
structure SubmeshGeometry where
  indexCount : Nat
  startIndexLocation : Nat
  baseVertexLocation : Nat
  deriving DecidableEq

/-- The part of `MeshGeometry` that BuildShapeGeometry fills in: the name, the
`DrawArgs` table (an association list keyed by submesh name, in insertion
order), and the element counts of the concatenated vertex and index buffers. -/
structure MeshGeometry where
  name : String
  drawArgs : List (String × SubmeshGeometry)
  vertexBufferCount : Nat
  indexBufferCount : Nat
  deriving DecidableEq

/-- `LitColumnsApp::BuildShapeGeometry` (lines 496-778), with the fourteen
generated meshes abstracted to their element counts.  The vertex and index
offsets are computed exactly as the source computes them (running sums over
the fixed concatenation order), the `DrawArgs` table is filled with the same
fourteen keys, and the buffer sizes are the sums the source accumulates via
`totalVertexCount` and the `indices.insert` chain. -/
def buildShapeGeometry (box grid sphere cylinder diamond wedge octahedron
    triangularPrism hexagon octagon cone pyramid container star : MeshData) :
    MeshGeometry :=
  let boxVertexOffset : Nat := 0
  let gridVertexOffset := box.vertexCount
  let sphereVertexOffset := gridVertexOffset + grid.vertexCount
  let cylinderVertexOffset := sphereVertexOffset + sphere.vertexCount
  let diamondVertexOffset := cylinderVertexOffset + cylinder.vertexCount
  let wedgeVertexOffset := diamondVertexOffset + diamond.vertexCount
  let octahedronVertexOffset := wedgeVertexOffset + wedge.vertexCount
  let triPrismVertexOffset := octahedronVertexOffset + octahedron.vertexCount
  let hexagonVertexOffset := triPrismVertexOffset + triangularPrism.vertexCount
  let octagonVertexOffset := hexagonVertexOffset + hexagon.vertexCount
  let coneVertexOffset := octagonVertexOffset + octagon.vertexCount
  let pyramidVertexOffset := coneVertexOffset + cone.vertexCount
  let containerVertexOffset := pyramidVertexOffset + pyramid.vertexCount
  let starVertexOffset := containerVertexOffset + container.vertexCount
  let boxIndexOffset : Nat := 0
  let gridIndexOffset := box.indexCount
  let sphereIndexOffset := gridIndexOffset + grid.indexCount
  let cylinderIndexOffset := sphereIndexOffset + sphere.indexCount
  let diamondIndexOffset := cylinderIndexOffset + cylinder.indexCount
  let wedgeIndexOffset := diamondIndexOffset + diamond.indexCount
  let octahedronIndexOffset := wedgeIndexOffset + wedge.indexCount
  let triPrismIndexOffset := octahedronIndexOffset + octahedron.indexCount
  let hexagonIndexOffset := triPrismIndexOffset + triangularPrism.indexCount
  let octagonIndexOffset := hexagonIndexOffset + hexagon.indexCount
  let coneIndexOffset := octagonIndexOffset + octagon.indexCount
  let pyramidIndexOffset := coneIndexOffset + cone.indexCount
  let containerIndexOffset := pyramidIndexOffset + pyramid.indexCount
  let starIndexOffset := containerIndexOffset + container.indexCount
  { name := "shapeGeo"
    drawArgs :=
      [ ("box", ⟨box.indexCount, boxIndexOffset, boxVertexOffset⟩),
        ("grid", ⟨grid.indexCount, gridIndexOffset, gridVertexOffset⟩),
        ("sphere", ⟨sphere.indexCount, sphereIndexOffset, sphereVertexOffset⟩),
        ("cylinder", ⟨cylinder.indexCount, cylinderIndexOffset, cylinderVertexOffset⟩),
        ("diamond", ⟨diamond.indexCount, diamondIndexOffset, diamondVertexOffset⟩),
        ("wedge", ⟨wedge.indexCount, wedgeIndexOffset, wedgeVertexOffset⟩),
        ("octahedron", ⟨octahedron.indexCount, octahedronIndexOffset, octahedronVertexOffset⟩),
        ("triangularPrism", ⟨triangularPrism.indexCount, triPrismIndexOffset, triPrismVertexOffset⟩),
        ("hexagon", ⟨hexagon.indexCount, hexagonIndexOffset, hexagonVertexOffset⟩),
        ("octagon", ⟨octagon.indexCount, octagonIndexOffset, octagonVertexOffset⟩),
        ("cone", ⟨cone.indexCount, coneIndexOffset, coneVertexOffset⟩),
        ("pyramid", ⟨pyramid.indexCount, pyramidIndexOffset, pyramidVertexOffset⟩),
        ("container", ⟨container.indexCount, containerIndexOffset, containerVertexOffset⟩),
        ("star", ⟨star.indexCount, starIndexOffset, starVertexOffset⟩) ]
    vertexBufferCount := starVertexOffset + star.vertexCount
    indexBufferCount := starIndexOffset + star.indexCount }

/-- The contents of `mGeometries` after `BuildShapeGeometry` runs: the single
entry keyed `"shapeGeo"` (line 777, `mGeometries[geo->Name] = std::move(geo)`).
Modelled as an association list since the map starts empty. -/
def buildGeometries (box grid sphere cylinder diamond wedge octahedron
    triangularPrism hexagon octagon cone pyramid container star : MeshData) :
    List (String × MeshGeometry) :=
  [ ("shapeGeo", buildShapeGeometry box grid sphere cylinder diamond wedge octahedron
      triangularPrism hexagon octagon cone pyramid container star) ]

/-- The fixed submesh concatenation order of BuildShapeGeometry. -/
def shapeNames : List String :=
  [ "box", "grid", "sphere", "cylinder", "diamond", "wedge", "octahedron",
    "triangularPrism", "hexagon", "octagon", "cone", "pyramid", "container", "star" ]

/-- `DrawArgs[k]` access on an existing key; a missing key yields the
value-initialised submesh, matching `std::unordered_map::operator[]`. -/
def MeshGeometry.drawArg (g : MeshGeometry) (k : String) : SubmeshGeometry :=
  (g.drawArgs.lookup k).getD ⟨0, 0, 0⟩

/-- An `XMFLOAT4` colour: either one of the named `DirectX::Colors` constants
or an explicit RGBA literal from the source. -/
inductive Color4 where
  | named : String → Color4
  | rgba : ℚ → ℚ → ℚ → ℚ → Color4
  deriving DecidableEq

/-- The `Material` framework struct (d3dUtil.h) as used by this app.
Modelled from the spec: d3dUtil.h is not among the provided sources; per the
spec's account of the dirty-count protocol, a freshly constructed material
starts with `NumFramesDirty = gNumFrameResources` and an identity
`MatTransform`, and `BuildMaterials` fills in the remaining fields. -/
structure Material where
  name : String
  matCBIndex : Nat
  diffuseSrvHeapIndex : Nat
  diffuseAlbedo : Color4
  fresnelR0 : ℚ × ℚ × ℚ
  roughness : ℚ
  matTransform : Mat4 := Mat4.identity4x4
  numFramesDirty : Nat := gNumFrameResources
  deriving DecidableEq

/-- `LitColumnsApp::BuildMaterials` (lines 823-925): the contents of
`mMaterials` as an association list in the insertion order of lines 913-924.
Every numeric field is the exact rational of the float literal in the
source. -/
def buildMaterials : List (String × Material) :=
  [ ("bricks0",
     { name := "bricks0", matCBIndex := 0, diffuseSrvHeapIndex := 0,
       diffuseAlbedo := Color4.named "ForestGreen",
       fresnelR0 := (0.02, 0.02, 0.02), roughness := 0.1 }),
    ("stone0",
     { name := "stone0", matCBIndex := 1, diffuseSrvHeapIndex := 1,
       diffuseAlbedo := Color4.named "LightSteelBlue",
       fresnelR0 := (0.05, 0.05, 0.05), roughness := 0.3 }),
    ("tile0",
     { name := "tile0", matCBIndex := 2, diffuseSrvHeapIndex := 2,
       diffuseAlbedo := Color4.named "DimGray",
       fresnelR0 := (0.02, 0.02, 0.02), roughness := 0.2 }),
    ("wedgeMat",
     { name := "wedgeMat", matCBIndex := 3, diffuseSrvHeapIndex := 3,
       diffuseAlbedo := Color4.rgba 0.98 0.55 0.94 1,
       fresnelR0 := (0.05, 0.05, 0.05), roughness := 0.3 }),
    ("diaMat",
     { name := "diaMat", matCBIndex := 4, diffuseSrvHeapIndex := 4,
       diffuseAlbedo := Color4.rgba 0 0 1 1,
       fresnelR0 := (0.05, 0.05, 0.05), roughness := 0.3 }),
    ("octahedronMat",
     { name := "octahedronMat", matCBIndex := 5, diffuseSrvHeapIndex := 5,
       diffuseAlbedo := Color4.rgba 0.98 1 0 1,
       fresnelR0 := (0.05, 0.05, 0.05), roughness := 0.3 }),
    ("sky",
     { name := "sky", matCBIndex := 6, diffuseSrvHeapIndex := 6,
       diffuseAlbedo := Color4.named "SkyBlue",
       fresnelR0 := (0.05, 0.05, 0.05), roughness := 0.3 }),
    ("gold",
     { name := "gold", matCBIndex := 7, diffuseSrvHeapIndex := 7,
       diffuseAlbedo := Color4.named "Goldenrod",
       fresnelR0 := (0.05, 0.05, 0.05), roughness := 0.2 }),
    ("shineBlue",
     { name := "shineBlue", matCBIndex := 8, diffuseSrvHeapIndex := 8,
       diffuseAlbedo := Color4.named "DeepSkyBlue",
       fresnelR0 := (0.05, 0.05, 0.05), roughness := 0.05 }),
    ("shineRed",
     { name := "shineRed", matCBIndex := 9, diffuseSrvHeapIndex := 9,
       diffuseAlbedo := Color4.rgba 0.85 0.2 0.2 1,
       fresnelR0 := (0.05, 0.05, 0.05), roughness := 0.05 }),
    ("wallPurple",
     { name := "wallPurple", matCBIndex := 10, diffuseSrvHeapIndex := 9,
       diffuseAlbedo := Color4.rgba 0.52 0.14 0.72 1,
       fresnelR0 := (0.05, 0.05, 0.05), roughness := 0.05 }) ]

/-- The `RenderItem` struct of LitColumnsApp.cpp (lines 22-52).  The `Mat` and
`Geo` pointers are modelled as optional names into `mMaterials` and
`mGeometries` (`none` is the `nullptr` default); all other defaults are the
member initialisers of the source. -/
structure RenderItem where
  world : Mat4 := Mat4.identity4x4
  texTransform : Mat4 := Mat4.identity4x4
  numFramesDirty : Nat := gNumFrameResources
  objCBIndex : Nat
  mat : Option String := none
  geo : Option String := none
  primitiveTopology : String := "D3D11_PRIMITIVE_TOPOLOGY_TRIANGLELIST"
  indexCount : Nat := 0
  startIndexLocation : Nat := 0
  baseVertexLocation : Nat := 0
  deriving DecidableEq

/-- `LitColumnsApp::BuildRenderItems` (lines 927-1419): the contents of
`mAllRitems` in push order, parametric in the geometry `g` (the `"shapeGeo"`
entry built by `BuildShapeGeometry`), from whose `DrawArgs` each item takes its
`IndexCount`, `StartIndexLocation` and `BaseVertexLocation`.  The four-item
column loops and the five two-item wall loops are mirrored with `List.range 2`
over the loop counter `i`. -/
def buildRenderItems (g : MeshGeometry) : List RenderItem :=
  let geoName : Option String := some "shapeGeo"
  let brickTexTransform := Mat4.scaling 1 3 1
  let sphereTransform := Mat4.scaling 1.4 1.4 1.4
  let hexTransform := Mat4.scaling 0.5 1.2 0.5
  let coneTransform := Mat4.scaling 0.7 0.7 0.7
  [ { world := Mat4.mul (Mat4.scaling 4.3 0.3 4.3) (Mat4.translation 0 0.3 (-8)),
      texTransform := Mat4.scaling 1 1 1, objCBIndex := 0,
      mat := some "diaMat", geo := geoName,
      indexCount := (g.drawArg "cylinder").indexCount,
      startIndexLocation := (g.drawArg "cylinder").startIndexLocation,
      baseVertexLocation := (g.drawArg "cylinder").baseVertexLocation },
    { world := Mat4.mul (Mat4.scaling 1.3 1 1.3) (Mat4.translation 0 1.3 (-8)),
      texTransform := Mat4.scaling 1 1 1, objCBIndex := 1,
      mat := some "stone0", geo := geoName,
      indexCount := (g.drawArg "container").indexCount,
      startIndexLocation := (g.drawArg "container").startIndexLocation,
      baseVertexLocation := (g.drawArg "container").baseVertexLocation },
    { world := Mat4.mul (Mat4.scaling 1 1.5 1) (Mat4.translation (-3.5) 0.5 (-8)),
      texTransform := Mat4.scaling 1 1 1, objCBIndex := 2,
      mat := some "wedgeMat", geo := geoName,
      indexCount := (g.drawArg "pyramid").indexCount,
      startIndexLocation := (g.drawArg "pyramid").startIndexLocation,
      baseVertexLocation := (g.drawArg "pyramid").baseVertexLocation },
    { world := Mat4.mul (Mat4.scaling 1 1.5 1) (Mat4.translation 3.5 0.5 (-8)),
      texTransform := Mat4.scaling 1 1 1, objCBIndex := 3,
      mat := some "wedgeMat", geo := geoName,
      indexCount := (g.drawArg "pyramid").indexCount,
      startIndexLocation := (g.drawArg "pyramid").startIndexLocation,
      baseVertexLocation := (g.drawArg "pyramid").baseVertexLocation },
    { world := Mat4.mul (Mat4.scaling 3 2 3) (Mat4.translation 0 7.5 6),
      texTransform := Mat4.scaling 1 1 1, objCBIndex := 4,
      mat := some "sky", geo := geoName,
      indexCount := (g.drawArg "cone").indexCount,
      startIndexLocation := (g.drawArg "cone").startIndexLocation,
      baseVertexLocation := (g.drawArg "cone").baseVertexLocation },
    { world := Mat4.mul (Mat4.scaling 5 1 5) (Mat4.translation 0 5 6),
      texTransform := Mat4.scaling 1 1 1, objCBIndex := 5,
      mat := some "diaMat", geo := geoName,
      indexCount := (g.drawArg "cylinder").indexCount,
      startIndexLocation := (g.drawArg "cylinder").startIndexLocation,
      baseVertexLocation := (g.drawArg "cylinder").baseVertexLocation },
    { world := Mat4.mul (Mat4.scaling 4.5 2 4.5) (Mat4.translation 0 2 6),
      texTransform := Mat4.scaling 1 1 1, objCBIndex := 6,
      mat := some "gold", geo := geoName,
      indexCount := (g.drawArg "hexagon").indexCount,
      startIndexLocation := (g.drawArg "hexagon").startIndexLocation,
      baseVertexLocation := (g.drawArg "hexagon").baseVertexLocation },
    { world := Mat4.mul (Mat4.scaling 1.5 1.5 2.5) (Mat4.translation 0 0.5 (-2.5)),
      texTransform := Mat4.scaling 1 1 1, objCBIndex := 7,
      mat := some "sky", geo := geoName,
      indexCount := (g.drawArg "triangularPrism").indexCount,
      startIndexLocation := (g.drawArg "triangularPrism").startIndexLocation,
      baseVertexLocation := (g.drawArg "triangularPrism").baseVertexLocation },
    { world := Mat4.mul (Mat4.mul (Mat4.mul (Mat4.scaling 0.5 2 0.7)
                 (Mat4.rotationX (-90))) (Mat4.rotationY (-30)))
               (Mat4.translation (-1.7) 0.25 (-12)),
      texTransform := Mat4.scaling 1 1 1, objCBIndex := 8,
      mat := some "bricks0", geo := geoName,
      indexCount := (g.drawArg "triangularPrism").indexCount,
      startIndexLocation := (g.drawArg "triangularPrism").startIndexLocation,
      baseVertexLocation := (g.drawArg "triangularPrism").baseVertexLocation },
    { world := Mat4.mul (Mat4.mul (Mat4.mul (Mat4.scaling 0.5 2 0.7)
                 (Mat4.rotationX (-90))) (Mat4.rotationY 60))
               (Mat4.translation 1.5 0.25 (-12)),
      texTransform := Mat4.scaling 1 1 1, objCBIndex := 9,
      mat := some "bricks0", geo := geoName,
      indexCount := (g.drawArg "triangularPrism").indexCount,
      startIndexLocation := (g.drawArg "triangularPrism").startIndexLocation,
      baseVertexLocation := (g.drawArg "triangularPrism").baseVertexLocation },
    { world := Mat4.mul (Mat4.scaling 0.7 0.5 0.7) (Mat4.translation 0 2 (-8)),
      texTransform := Mat4.scaling 1 1 1, objCBIndex := 10,
      mat := some "shineBlue", geo := geoName,
      indexCount := (g.drawArg "diamond").indexCount,
      startIndexLocation := (g.drawArg "diamond").startIndexLocation,
      baseVertexLocation := (g.drawArg "diamond").baseVertexLocation },
    { world := Mat4.mul (Mat4.scaling 4.5 2 4.5) (Mat4.translation 0 0.5 6),
      texTransform := Mat4.scaling 1 1 1, objCBIndex := 11,
      mat := some "shineRed", geo := geoName,
      indexCount := (g.drawArg "box").indexCount,
      startIndexLocation := (g.drawArg "box").startIndexLocation,
      baseVertexLocation := (g.drawArg "box").baseVertexLocation },
    { world := Mat4.identity4x4,
      texTransform := Mat4.scaling 8 8 1, objCBIndex := 12,
      mat := some "tile0", geo := geoName,
      indexCount := (g.drawArg "grid").indexCount,
      startIndexLocation := (g.drawArg "grid").startIndexLocation,
      baseVertexLocation := (g.drawArg "grid").baseVertexLocation },
    { world := Mat4.mul (Mat4.mul (Mat4.scaling 0.3 0.4 2.5) (Mat4.rotationY (-90)))
               (Mat4.translation 0 0.35 2.5),
      texTransform := Mat4.scaling 1 1 1, objCBIndex := 13,
      mat := some "wedgeMat", geo := geoName,
      indexCount := (g.drawArg "wedge").indexCount,
      startIndexLocation := (g.drawArg "wedge").startIndexLocation,
      baseVertexLocation := (g.drawArg "wedge").baseVertexLocation },
    { world := Mat4.mul (Mat4.scaling 1 1 1) (Mat4.translation 3.5 2 (-8)),
      texTransform := Mat4.identity4x4, objCBIndex := 14,
      mat := some "octahedronMat", geo := geoName,
      indexCount := (g.drawArg "octahedron").indexCount,
      startIndexLocation := (g.drawArg "octahedron").startIndexLocation,
      baseVertexLocation := (g.drawArg "octahedron").baseVertexLocation },
    { world := Mat4.mul (Mat4.scaling 1 1 1) (Mat4.translation (-3.5) 2 (-8)),
      texTransform := Mat4.identity4x4, objCBIndex := 15,
      mat := some "octahedronMat", geo := geoName,
      indexCount := (g.drawArg "octahedron").indexCount,
      startIndexLocation := (g.drawArg "octahedron").startIndexLocation,
      baseVertexLocation := (g.drawArg "octahedron").baseVertexLocation } ]
  ++ ((List.range 2).flatMap (fun i =>
    let leftCylWorld := Mat4.translation (-3) 2 (1.5 + (i : ℚ) * 8.9)
    let rightCylWorld := Mat4.translation 3 2 (1.5 + (i : ℚ) * 8.9)
    let leftSphereWorld := Mat4.translation (-3) 5 (1.5 + (i : ℚ) * 8.9)
    let rightSphereWorld := Mat4.translation 3 5 (1.5 + (i : ℚ) * 8.9)
    [ { world := Mat4.mul brickTexTransform rightCylWorld,
        texTransform := brickTexTransform, objCBIndex := 16 + 4 * i,
        mat := some "bricks0", geo := geoName,
        indexCount := (g.drawArg "octagon").indexCount,
        startIndexLocation := (g.drawArg "octagon").startIndexLocation,
        baseVertexLocation := (g.drawArg "octagon").baseVertexLocation },
      { world := Mat4.mul brickTexTransform leftCylWorld,
        texTransform := brickTexTransform, objCBIndex := 17 + 4 * i,
        mat := some "bricks0", geo := geoName,
        indexCount := (g.drawArg "octagon").indexCount,
        startIndexLocation := (g.drawArg "octagon").startIndexLocation,
        baseVertexLocation := (g.drawArg "octagon").baseVertexLocation },
      { world := Mat4.mul sphereTransform leftSphereWorld,
        objCBIndex := 18 + 4 * i,
        mat := some "gold", geo := geoName,
        indexCount := (g.drawArg "sphere").indexCount,
        startIndexLocation := (g.drawArg "sphere").startIndexLocation,
        baseVertexLocation := (g.drawArg "sphere").baseVertexLocation },
      { world := Mat4.mul sphereTransform rightSphereWorld,
        texTransform := Mat4.identity4x4, objCBIndex := 19 + 4 * i,
        mat := some "gold", geo := geoName,
        indexCount := (g.drawArg "sphere").indexCount,
        startIndexLocation := (g.drawArg "sphere").startIndexLocation,
        baseVertexLocation := (g.drawArg "sphere").baseVertexLocation } ]))
  ++ ((List.range 2).flatMap (fun i =>
    let leftHexWorld := Mat4.translation (-7) 0.6 (0.5 + (i : ℚ) * 12)
    let rightHexWorld := Mat4.translation 7 0.6 (0.5 + (i : ℚ) * 12)
    let leftSphereWorld := Mat4.translation (-7) 1.6 (0.5 + (i : ℚ) * 12)
    let rightSphereWorld := Mat4.translation 7 1.6 (0.5 + (i : ℚ) * 12)
    [ { world := Mat4.mul hexTransform leftHexWorld,
        texTransform := brickTexTransform, objCBIndex := 24 + 4 * i,
        mat := some "diaMat", geo := geoName,
        indexCount := (g.drawArg "hexagon").indexCount,
        startIndexLocation := (g.drawArg "hexagon").startIndexLocation,
        baseVertexLocation := (g.drawArg "hexagon").baseVertexLocation },
      { world := Mat4.mul hexTransform rightHexWorld,
        texTransform := brickTexTransform, objCBIndex := 25 + 4 * i,
        mat := some "diaMat", geo := geoName,
        indexCount := (g.drawArg "hexagon").indexCount,
        startIndexLocation := (g.drawArg "hexagon").startIndexLocation,
        baseVertexLocation := (g.drawArg "hexagon").baseVertexLocation },
      { world := Mat4.mul coneTransform leftSphereWorld,
        objCBIndex := 26 + 4 * i,
        mat := some "gold", geo := geoName,
        indexCount := (g.drawArg "cone").indexCount,
        startIndexLocation := (g.drawArg "cone").startIndexLocation,
        baseVertexLocation := (g.drawArg "cone").baseVertexLocation },
      { world := Mat4.mul coneTransform rightSphereWorld,
        texTransform := Mat4.identity4x4, objCBIndex := 27 + 4 * i,
        mat := some "gold", geo := geoName,
        indexCount := (g.drawArg "cone").indexCount,
        startIndexLocation := (g.drawArg "cone").startIndexLocation,
        baseVertexLocation := (g.drawArg "cone").baseVertexLocation } ]))
  ++ [ { world := Mat4.mul (Mat4.scaling 0.3 0.4 4) (Mat4.translation (-3.65) 0.35 6),
         texTransform := Mat4.scaling 1 1 1, objCBIndex := 32,
         mat := some "wedgeMat", geo := geoName,
         indexCount := (g.drawArg "wedge").indexCount,
         startIndexLocation := (g.drawArg "wedge").startIndexLocation,
         baseVertexLocation := (g.drawArg "wedge").baseVertexLocation },
       { world := Mat4.mul (Mat4.mul (Mat4.scaling 0.3 0.4 4) (Mat4.rotationY 180))
                  (Mat4.translation 3.65 0.35 6),
         texTransform := Mat4.scaling 1 1 1, objCBIndex := 33,
         mat := some "wedgeMat", geo := geoName,
         indexCount := (g.drawArg "wedge").indexCount,
         startIndexLocation := (g.drawArg "wedge").startIndexLocation,
         baseVertexLocation := (g.drawArg "wedge").baseVertexLocation },
       { world := Mat4.mul (Mat4.mul (Mat4.scaling 0.3 0.4 2.5) (Mat4.rotationY 90))
                  (Mat4.translation 0 0.35 9.6),
         texTransform := Mat4.scaling 1 1 1, objCBIndex := 34,
         mat := some "wedgeMat", geo := geoName,
         indexCount := (g.drawArg "wedge").indexCount,
         startIndexLocation := (g.drawArg "wedge").startIndexLocation,
         baseVertexLocation := (g.drawArg "wedge").baseVertexLocation },
       { world := Mat4.mul (Mat4.scaling 0.2 1 0.2) (Mat4.translation 0 8.3 6),
         texTransform := Mat4.scaling 1 1 1, objCBIndex := 35,
         mat := some "diaMat", geo := geoName,
         indexCount := (g.drawArg "cylinder").indexCount,
         startIndexLocation := (g.drawArg "cylinder").startIndexLocation,
         baseVertexLocation := (g.drawArg "cylinder").baseVertexLocation },
       { world := Mat4.mul (Mat4.scaling 0.6 1 0.6) (Mat4.translation 0 9.5 6),
         texTransform := Mat4.scaling 1 1 1, objCBIndex := 36,
         mat := some "shineRed", geo := geoName,
         indexCount := (g.drawArg "star").indexCount,
         startIndexLocation := (g.drawArg "star").startIndexLocation,
         baseVertexLocation := (g.drawArg "star").baseVertexLocation },
       { world := Mat4.mul (Mat4.scaling 0.2 2.6 8) (Mat4.translation (-7) 0.5 6.5),
         texTransform := Mat4.scaling 1 1 1, objCBIndex := 37,
         mat := some "wallPurple", geo := geoName,
         indexCount := (g.drawArg "box").indexCount,
         startIndexLocation := (g.drawArg "box").startIndexLocation,
         baseVertexLocation := (g.drawArg "box").baseVertexLocation },
       { world := Mat4.mul (Mat4.mul (Mat4.scaling 0.2 2.6 9) (Mat4.rotationY 90))
                  (Mat4.translation 0 0.5 12.5),
         texTransform := Mat4.scaling 1 1 1, objCBIndex := 38,
         mat := some "wallPurple", geo := geoName,
         indexCount := (g.drawArg "box").indexCount,
         startIndexLocation := (g.drawArg "box").startIndexLocation,
         baseVertexLocation := (g.drawArg "box").baseVertexLocation },
       { world := Mat4.mul (Mat4.scaling 0.2 2.6 8) (Mat4.translation 7 0.5 6.5),
         texTransform := Mat4.scaling 1 1 1, objCBIndex := 39,
         mat := some "wallPurple", geo := geoName,
         indexCount := (g.drawArg "box").indexCount,
         startIndexLocation := (g.drawArg "box").startIndexLocation,
         baseVertexLocation := (g.drawArg "box").baseVertexLocation } ]
  ++ ((List.range 2).map (fun i =>
       { world := Mat4.mul (Mat4.mul (Mat4.scaling 0.2 2.6 3) (Mat4.rotationY 90))
                  (Mat4.translation (-5 + 10 * (i : ℚ)) 0.5 0.5),
         texTransform := Mat4.scaling 1 1 1, objCBIndex := 40 + i,
         mat := some "wallPurple", geo := geoName,
         indexCount := (g.drawArg "box").indexCount,
         startIndexLocation := (g.drawArg "box").startIndexLocation,
         baseVertexLocation := (g.drawArg "box").baseVertexLocation }))
  ++ ((List.range 2).map (fun i =>
       { world := Mat4.mul (Mat4.mul (Mat4.scaling 0.2 2.6 2) (Mat4.rotationY 90))
                  (Mat4.translation (-4 + 8 * (i : ℚ)) 0.5 (-5.5)),
         texTransform := Mat4.scaling 1 1 1, objCBIndex := 42 + i,
         mat := some "wallPurple", geo := geoName,
         indexCount := (g.drawArg "box").indexCount,
         startIndexLocation := (g.drawArg "box").startIndexLocation,
         baseVertexLocation := (g.drawArg "box").baseVertexLocation }))
  ++ ((List.range 2).map (fun i =>
       { world := Mat4.mul (Mat4.scaling 0.2 2.6 4)
                  (Mat4.translation (-5.35 + 10.7 * (i : ℚ)) 0.5 (-8.5)),
         texTransform := Mat4.scaling 1 1 1, objCBIndex := 44 + i,
         mat := some "wallPurple", geo := geoName,
         indexCount := (g.drawArg "box").indexCount,
         startIndexLocation := (g.drawArg "box").startIndexLocation,
         baseVertexLocation := (g.drawArg "box").baseVertexLocation }))
  ++ ((List.range 2).map (fun i =>
       { world := Mat4.mul (Mat4.mul (Mat4.scaling 0.2 2.6 2) (Mat4.rotationY 90))
                  (Mat4.translation (-4 + 8 * (i : ℚ)) 0.5 (-11.5)),
         texTransform := Mat4.scaling 1 1 1, objCBIndex := 46 + i,
         mat := some "wallPurple", geo := geoName,
         indexCount := (g.drawArg "box").indexCount,
         startIndexLocation := (g.drawArg "box").startIndexLocation,
         baseVertexLocation := (g.drawArg "box").baseVertexLocation }))
  ++ ((List.range 2).map (fun i =>
       { world := Mat4.mul (Mat4.scaling 0.2 2.6 4.2)
                  (Mat4.translation (-2.7 + 5.4 * (i : ℚ)) 0.5 (-2.5)),
         texTransform := Mat4.scaling 1 1 1, objCBIndex := 48 + i,
         mat := some "wallPurple", geo := geoName,
         indexCount := (g.drawArg "box").indexCount,
         startIndexLocation := (g.drawArg "box").startIndexLocation,
         baseVertexLocation := (g.drawArg "box").baseVertexLocation }))

/-- The final loop of `BuildRenderItems` (lines 1417-1418): every element of
`mAllRitems` is pushed onto `mOpaqueRitems`, in order. -/
def buildOpaqueRitems (allRitems : List RenderItem) : List RenderItem :=
  allRitems.foldl (fun acc e => acc ++ [e]) []

/-- The 14 generated meshes of BuildShapeGeometry, abstracted to their element
counts (the `GeometryGenerator::Create*` calls of lines 499-512 are framework
code outside the provided sources). -/
structure ShapeMeshes where
  box : MeshData
  grid : MeshData
  sphere : MeshData
  cylinder : MeshData
  diamond : MeshData
  wedge : MeshData
  octahedron : MeshData
  triangularPrism : MeshData
  hexagon : MeshData
  octagon : MeshData
  cone : MeshData
  pyramid : MeshData
  container : MeshData
  star : MeshData
  deriving DecidableEq

/-- `buildShapeGeometry` applied to a bundled `ShapeMeshes`. -/
def shapeGeoOf (m : ShapeMeshes) : MeshGeometry :=
  buildShapeGeometry m.box m.grid m.sphere m.cylinder m.diamond m.wedge
    m.octahedron m.triangularPrism m.hexagon m.octagon m.cone m.pyramid
    m.container m.star

/-- The meshes in the fixed concatenation order of BuildShapeGeometry. -/
def meshList (m : ShapeMeshes) : List MeshData :=
  [ m.box, m.grid, m.sphere, m.cylinder, m.diamond, m.wedge, m.octahedron,
    m.triangularPrism, m.hexagon, m.octagon, m.cone, m.pyramid, m.container, m.star ]

/-- `ObjectConstants` (FrameResource.h): the per-object constant-buffer record
filled by `UpdateObjectCBs` — the transposed World and TexTransform
matrices. -/
structure ObjectConstants where
  world : Mat4
  texTransform : Mat4
  deriving DecidableEq

/-- `MaterialConstants` (d3dUtil.h): the per-material constant-buffer record
filled by `UpdateMaterialCBs`. -/
structure MaterialConstants where
  diffuseAlbedo : Color4
  fresnelR0 : ℚ × ℚ × ℚ
  roughness : ℚ
  matTransform : Mat4
  deriving DecidableEq

/-- `UploadBuffer::CopyData(elementIndex, data)`: store `data` in slot `i`.
A slot never yet written holds `none`. -/
def copyData {α : Type} (cb : List (Option α)) (i : Nat) (v : α) : List (Option α) :=
  cb.set i (some v)

/-- One `FrameResource` (FrameResource.h/.cpp): its GPU `Fence` value and its
per-object and per-material upload buffers, modelled by their slot contents.
The command allocator and pass buffer carry no state relevant to the claims
below. -/
structure FrameResource where
  fence : Nat
  objectCB : List (Option ObjectConstants)
  materialCB : List (Option MaterialConstants)
  deriving DecidableEq

/-- `FrameResource::FrameResource(device, 1, objectCount, materialCount)`:
fresh buffers sized by the given element counts, `Fence = 0`. -/
def mkFrameResource (objectCount materialCount : Nat) : FrameResource :=
  { fence := 0,
    objectCB := List.replicate objectCount none,
    materialCB := List.replicate materialCount none }

/-- `LitColumnsApp::BuildFrameResources` (lines 814-821): push
`gNumFrameResources` fresh frame resources, each allocated with
`(UINT)mAllRitems.size()` object slots and `(UINT)mMaterials.size()` material
slots. -/
def buildFrameResources (objectCount materialCount : Nat) : List FrameResource :=
  (List.range gNumFrameResources).map (fun _ => mkFrameResource objectCount materialCount)

/-- The orbit-camera fields of LitColumnsApp (lines 123-127): `mTheta`,
`mPhi`, `mRadius` and `mLastMousePos`. -/
structure CameraState where
  theta : ℚ
  phi : ℚ
  radius : ℚ
  lastMouseX : ℤ
  lastMouseY : ℤ
  deriving DecidableEq

/-- `MathHelper::Pi` / `XM_PI` as the exact rational of the float constant. -/
def mathPi : ℚ := 3.1415926535

/-- `XMConvertToRadians(deg) = deg * (pi / 180)`. -/
def xmConvertToRadians (deg : ℚ) : ℚ := deg * (mathPi / 180)

/-- `MathHelper::Clamp(x, low, high)`: `x < low ? low : (x > high ? high : x)`. -/
def mhClamp (x low high : ℚ) : ℚ :=
  if x < low then low else if high < x then high else x

/-- The member initialisers of lines 123-125: `mTheta = 1.5f*XM_PI`,
`mPhi = 0.2f*XM_PI`, `mRadius = 35.0f`.  `mLastMousePos` has no initialiser in
the source, so its starting value is left as a parameter. -/
def initCamera (mx my : ℤ) : CameraState :=
  { theta := 1.5 * mathPi, phi := 0.2 * mathPi, radius := 35,
    lastMouseX := mx, lastMouseY := my }

/-- `LitColumnsApp::OnMouseDown` (lines 287-293): record the mouse position
(the `SetCapture` call has no modelled effect). -/
def onMouseDown (x y : ℤ) (c : CameraState) : CameraState :=
  { c with lastMouseX := x, lastMouseY := y }

/-- `LitColumnsApp::OnMouseUp` (lines 295-298): only `ReleaseCapture`, no
state change. -/
def onMouseUp (c : CameraState) : CameraState := c

/-- `LitColumnsApp::OnMouseMove` (lines 300-333).  `lb`/`rb` are the
`MK_LBUTTON`/`MK_RBUTTON` bits of `btnState`; the branch structure, the
0.25-degree-per-pixel and 0.05-unit-per-pixel factors, and the two clamps are
exactly those of the source. -/
def onMouseMove (lb rb : Bool) (x y : ℤ) (c : CameraState) : CameraState :=
  let c1 :=
    if lb then
      let dx := xmConvertToRadians (0.25 * ((x : ℚ) - (c.lastMouseX : ℚ)))
      let dy := xmConvertToRadians (0.25 * ((y : ℚ) - (c.lastMouseY : ℚ)))
      { c with theta := c.theta + dx,
               phi := mhClamp (c.phi + dy) 0.1 (mathPi - 0.1) }
    else if rb then
      let dx := 0.05 * ((x : ℚ) - (c.lastMouseX : ℚ))
      let dy := 0.05 * ((y : ℚ) - (c.lastMouseY : ℚ))
      { c with radius := mhClamp (c.radius + dx - dy) 5 150 }
    else c
  { c1 with lastMouseX := x, lastMouseY := y }

/-- A mouse event delivered to the three handlers. -/
inductive MouseEvent where
  | down : ℤ → ℤ → MouseEvent
  | up : ℤ → ℤ → MouseEvent
  | move : Bool → Bool → ℤ → ℤ → MouseEvent
  deriving DecidableEq

/-- Dispatch one mouse event to its handler. -/
def applyMouseEvent (c : CameraState) : MouseEvent → CameraState
  | MouseEvent.down x y => onMouseDown x y c
  | MouseEvent.up _ _ => onMouseUp c
  | MouseEvent.move lb rb x y => onMouseMove lb rb x y c

/-- Run a sequence of mouse events. -/
def applyMouseEvents (c : CameraState) (evs : List MouseEvent) : CameraState :=
  evs.foldl applyMouseEvent c

/-- The application state touched by the per-frame CPU update cycle: the frame
resources, the current frame-resource index, the render-item and material
tables, and the camera. -/
structure AppState where
  frameResources : List FrameResource
  currFrameResourceIndex : Nat
  allRitems : List RenderItem
  materials : List (String × Material)
  camera : CameraState
  deriving DecidableEq

/-- The state after `Initialize` (lines 176-182): geometry, materials and
render items built, `gNumFrameResources` frame resources allocated with the
table sizes, `mCurrFrameResourceIndex = 0`. -/
def initAppState (m : ShapeMeshes) (mx my : ℤ) : AppState :=
  let items := buildRenderItems (shapeGeoOf m)
  { frameResources := buildFrameResources items.length buildMaterials.length,
    currFrameResourceIndex := 0,
    allRitems := items,
    materials := buildMaterials,
    camera := initCamera mx my }

/-- The loop body of `UpdateObjectCBs` (lines 363-381) for one render item:
when `NumFramesDirty > 0`, copy the transposed `World` and `TexTransform` into
slot `ObjCBIndex` of the current object buffer and decrement the counter;
otherwise leave both untouched.  The accumulator carries the rebuilt item list
and the object buffer. -/
def objectCBStep (acc : List RenderItem × List (Option ObjectConstants))
    (e : RenderItem) : List RenderItem × List (Option ObjectConstants) :=
  if 0 < e.numFramesDirty then
    (acc.1 ++ [{ e with numFramesDirty := e.numFramesDirty - 1 }],
     copyData acc.2 e.objCBIndex
       { world := Mat4.transpose e.world, texTransform := Mat4.transpose e.texTransform })
  else (acc.1 ++ [e], acc.2)

/-- `LitColumnsApp::UpdateObjectCBs` (lines 360-382): fold the loop body over
`mAllRitems` against the current frame resource's `ObjectCB`. -/
def updateObjectCBs (s : AppState) : AppState :=
  match s.frameResources[s.currFrameResourceIndex]? with
  | none => s
  | some fr =>
    let p := s.allRitems.foldl objectCBStep ([], fr.objectCB)
    { s with allRitems := p.1,
             frameResources := s.frameResources.set s.currFrameResourceIndex
               { fr with objectCB := p.2 } }

/-- The loop body of `UpdateMaterialCBs` (lines 387-407) for one material. -/
def materialCBStep
    (acc : List (String × Material) × List (Option MaterialConstants))
    (e : String × Material) :
    List (String × Material) × List (Option MaterialConstants) :=
  if 0 < e.2.numFramesDirty then
    (acc.1 ++ [(e.1, { e.2 with numFramesDirty := e.2.numFramesDirty - 1 })],
     copyData acc.2 e.2.matCBIndex
       { diffuseAlbedo := e.2.diffuseAlbedo, fresnelR0 := e.2.fresnelR0,
         roughness := e.2.roughness, matTransform := Mat4.transpose e.2.matTransform })
  else (acc.1 ++ [e], acc.2)

/-- `LitColumnsApp::UpdateMaterialCBs` (lines 384-408): fold the loop body
over `mMaterials` against the current frame resource's `MaterialCB`. -/
def updateMaterialCBs (s : AppState) : AppState :=
  match s.frameResources[s.currFrameResourceIndex]? with
  | none => s
  | some fr =>
    let p := s.materials.foldl materialCBStep ([], fr.materialCB)
    { s with materials := p.1,
             frameResources := s.frameResources.set s.currFrameResourceIndex
               { fr with materialCB := p.2 } }

/-- Line 211: `mCurrFrameResourceIndex = (mCurrFrameResourceIndex + 1) %
gNumFrameResources`. -/
def advanceFrameResourceIndex (s : AppState) : AppState :=
  { s with currFrameResourceIndex := (s.currFrameResourceIndex + 1) % gNumFrameResources }

/-- The deterministic CPU work of one `Update` call (lines 205-228): cycle the
frame-resource index, then run `UpdateObjectCBs` and `UpdateMaterialCBs`
against the new current frame resource.  (`AnimateMaterials` is an empty
function; the fence wait is modelled separately by `SyncStep`.) -/
def updateCycle (s : AppState) : AppState :=
  updateMaterialCBs (updateObjectCBs (advanceFrameResourceIndex s))

/-- Those render items whose `NumFramesDirty` is positive at the start of
cycle `k` — exactly the ones `UpdateObjectCBs` copies during that cycle.
`objWriteSteps s0 i n` is the list of cycles among the first `n` in which item
`i` is copied. -/
def objWriteSteps (s0 : AppState) (i n : Nat) : List Nat :=
  (List.range n).filter (fun k =>
    (((Nat.iterate updateCycle k s0).allRitems[i]?).map
      (fun e => decide (0 < e.numFramesDirty))).getD false)

/-- The cycles among the first `n` in which material `j` is copied by
`UpdateMaterialCBs`. -/
def matWriteSteps (s0 : AppState) (j n : Nat) : List Nat :=
  (List.range n).filter (fun k =>
    (((Nat.iterate updateCycle k s0).materials[j]?).map
      (fun e => decide (0 < e.2.numFramesDirty))).getD false)

/-- The frame resource written during cycle `k`: the index after the
`(mCurrFrameResourceIndex + 1) % gNumFrameResources` advance of that cycle. -/
def writeTargetAt (s0 : AppState) (k : Nat) : Nat :=
  ((Nat.iterate updateCycle k s0).currFrameResourceIndex + 1) % gNumFrameResources

/-- The fence-synchronisation view of the frame loop: the per-frame-resource
`Fence` values, `mCurrentFence`, the GPU's `mFence->GetCompletedValue()`, the
current frame-resource index, and whether the next CPU action is `Update`
(`inDraw = false`) or `Draw` (`inDraw = true`).  Only indices `0..2` of
`frFence` are ever written. -/
structure SyncState where
  currFrameResourceIndex : Nat
  frFence : Nat → Nat
  currentFence : Nat
  gpuCompleted : Nat
  inDraw : Bool

/-- Line 211's index advance. -/
def nextFrameIndex (i : Nat) : Nat := (i + 1) % gNumFrameResources

/-- The wait condition of `Update`, line 216:
`mCurrFrameResource->Fence != 0 && mFence->GetCompletedValue() <
mCurrFrameResource->Fence`, evaluated for the frame resource that `Update`
has just cycled to. -/
def mustWait (s : SyncState) : Prop :=
  s.frFence (nextFrameIndex s.currFrameResourceIndex) ≠ 0 ∧
  s.gpuCompleted < s.frFence (nextFrameIndex s.currFrameResourceIndex)

instance (s : SyncState) : Decidable (mustWait s) := by
  unfold mustWait; infer_instance

/-- One transition of the frame loop.
`gpuProgress` lets `GetCompletedValue` advance at any time, never past the
last value signalled on the command queue (line 284).  `update` is the
synchronisation part of `Update` (lines 210-222): it cycles the index and can
complete only when the wait of line 216 is over.  `draw` is the
synchronisation part of `Draw` (lines 279-284): it stamps the current frame
resource with `++mCurrentFence` and signals that value. -/
inductive SyncStep : SyncState → SyncState → Prop where
  | gpuProgress (s : SyncState) (c : Nat) (hmono : s.gpuCompleted ≤ c)
      (hsignalled : c ≤ s.currentFence) :
      SyncStep s { s with gpuCompleted := c }
  | update (s : SyncState) (hphase : s.inDraw = false) (hwait : ¬ mustWait s) :
      SyncStep s { s with
        currFrameResourceIndex := nextFrameIndex s.currFrameResourceIndex,
        inDraw := true }
  | draw (s : SyncState) (hphase : s.inDraw = true) :
      SyncStep s { s with
        frFence := fun i =>
          if i = s.currFrameResourceIndex then s.currentFence + 1 else s.frFence i,
        currentFence := s.currentFence + 1,
        inDraw := false }

/-- The loop's start: `mCurrFrameResourceIndex = 0`, every `FrameResource`
constructed with `Fence = 0`, `mCurrentFence = 0` (d3dApp), nothing completed,
`Update` next. -/
def initSyncState : SyncState :=
  { currFrameResourceIndex := 0, frFence := fun _ => 0, currentFence := 0,
    gpuCompleted := 0, inDraw := false }

/-- States the frame loop can reach from its start. -/
inductive SyncReachable : SyncState → Prop where
  | init : SyncReachable initSyncState
  | step {s t : SyncState} : SyncReachable s → SyncStep s t → SyncReachable t

/-- A command recorded on the command list by `DrawRenderItems`
(lines 1436-1446), with constant-buffer bindings by GPU virtual address. -/
inductive GpuCommand where
  | setVertexBuffers : String → GpuCommand
  | setIndexBuffer : String → GpuCommand
  | setPrimitiveTopology : String → GpuCommand
  | setGraphicsRootCBV : Nat → Nat → GpuCommand
  | drawIndexedInstanced : Nat → Nat → Nat → Nat → Nat → GpuCommand
  deriving DecidableEq

/-- `ri->Mat->MatCBIndex`: dereference the item's material pointer in
`mMaterials`; `none` models the null-pointer crash. -/
def derefMatCBIndex (mats : List (String × Material)) (m : Option String) :
    Option Nat :=
  m.bind (fun n => (mats.lookup n).map (fun mt => mt.matCBIndex))

/-- The body of the `DrawRenderItems` loop (lines 1432-1447) for one render
item: bind the geometry's vertex/index buffers and topology, bind the object
buffer at `objectCB base + ObjCBIndex * objCBByteSize` and the material buffer
at `matCB base + MatCBIndex * matCBByteSize`, then record
`DrawIndexedInstanced(IndexCount, 1, StartIndexLocation, BaseVertexLocation,
0)`.  Fails (`none`) when the `Geo` or `Mat` pointer is null. -/
def itemCommands (mats : List (String × Material))
    (objBase matBase objCBByteSize matCBByteSize : Nat) (ri : RenderItem) :
    Option (List GpuCommand) :=
  ri.geo.bind (fun gname =>
    (derefMatCBIndex mats ri.mat).map (fun mi =>
      [ GpuCommand.setVertexBuffers gname,
        GpuCommand.setIndexBuffer gname,
        GpuCommand.setPrimitiveTopology ri.primitiveTopology,
        GpuCommand.setGraphicsRootCBV 0 (objBase + ri.objCBIndex * objCBByteSize),
        GpuCommand.setGraphicsRootCBV 1 (matBase + mi * matCBByteSize),
        GpuCommand.drawIndexedInstanced ri.indexCount 1 ri.startIndexLocation
          ri.baseVertexLocation 0 ]))

/-- `LitColumnsApp::DrawRenderItems` (lines 1423-1448): the command sequence
recorded for `ritems`, one item after another in list order.  `objCBByteSize`
and `matCBByteSize` stand for
`d3dUtil::CalcConstantBufferByteSize(sizeof(ObjectConstants))` and
`...(sizeof(MaterialConstants))`, kept abstract since d3dUtil.h is framework
code outside the provided sources. -/
def drawRenderItems (mats : List (String × Material))
    (objBase matBase objCBByteSize matCBByteSize : Nat)
    (ritems : List RenderItem) : Option (List GpuCommand) :=
  ritems.foldr
    (fun ri acc =>
      (itemCommands mats objBase matBase objCBByteSize matCBByteSize ri).bind
        (fun cs => acc.map (fun rest => cs ++ rest)))
    (some [])

/-- `d > 0 ? d - 1 : d` — the per-cycle effect of the dirty-count protocol on
one `NumFramesDirty` counter. -/
def dirtyDec (d : Nat) : Nat := if 0 < d then d - 1 else d

/-- The effect of one `UpdateObjectCBs` pass on one render item: decrement
`NumFramesDirty` if positive, touch nothing else. -/
def objDec (e : RenderItem) : RenderItem :=
  { e with numFramesDirty := dirtyDec e.numFramesDirty }

/-- The effect of one `UpdateMaterialCBs` pass on one material. -/
def matDec (p : String × Material) : String × Material :=
  (p.1, { p.2 with numFramesDirty := dirtyDec p.2.numFramesDirty })

/-- The `ObjectConstants` record `UpdateObjectCBs` copies for a render item:
the transposed `World` and `TexTransform`. -/
def objConsts (e : RenderItem) : ObjectConstants :=
  { world := Mat4.transpose e.world, texTransform := Mat4.transpose e.texTransform }

/-- The `MaterialConstants` record `UpdateMaterialCBs` copies for a material. -/
def matConsts (mt : Material) : MaterialConstants :=
  { diffuseAlbedo := mt.diffuseAlbedo, fresnelR0 := mt.fresnelR0,
    roughness := mt.roughness, matTransform := Mat4.transpose mt.matTransform }

/-- The object-buffer side of one `UpdateObjectCBs` loop iteration. -/
def objWrite (cb : List (Option ObjectConstants)) (e : RenderItem) :
    List (Option ObjectConstants) :=
  if 0 < e.numFramesDirty then copyData cb e.objCBIndex (objConsts e) else cb

/-- The material-buffer side of one `UpdateMaterialCBs` loop iteration. -/
def matWrite (cb : List (Option MaterialConstants)) (p : String × Material) :
    List (Option MaterialConstants) :=
  if 0 < p.2.numFramesDirty then copyData cb p.2.matCBIndex (matConsts p.2) else cb

/-- `sumsBefore cs` lists, for each position `k` of `cs`, the sum of the
entries before position `k` — the exact-prefix-summation shape that the offset
bookkeeping of BuildShapeGeometry is claimed to have. -/
def sumsBefore (cs : List Nat) : List Nat :=
  (List.range cs.length).map (fun k => (cs.take k).sum)

/-- Membership of buffer position `j` in the `k`-th of the half-open ranges
`[before_k, before_k + cs_k)` laid out by prefix summation over `cs` (an
out-of-bounds `k` gives an empty range). -/
def inSumRange (cs : List Nat) (k j : Nat) : Prop :=
  (cs.take k).sum ≤ j ∧ j < (cs.take k).sum + (cs[k]?).getD 0

/-- Membership of index-buffer position `j` in the half-open range
`[StartIndexLocation, StartIndexLocation + IndexCount)` of the `k`-th
`DrawArgs` submesh (an out-of-bounds `k` gives an empty range). -/
def inDrawRange (g : MeshGeometry) (k j : Nat) : Prop :=
  match g.drawArgs[k]? with
  | some p => p.2.startIndexLocation ≤ j ∧ j < p.2.startIndexLocation + p.2.indexCount
  | none => False

/-- A concrete mesh-size assignment used to instantiate universally
quantified theorems on sample inputs. -/
def sampleMeshes : ShapeMeshes :=
  { box := ⟨24, 36⟩, grid := ⟨2501, 14400⟩, sphere := ⟨401, 2280⟩,
    cylinder := ⟨485, 2520⟩, diamond := ⟨12, 24⟩, wedge := ⟨8, 24⟩,
    octahedron := ⟨6, 24⟩, triangularPrism := ⟨6, 24⟩, hexagon := ⟨12, 60⟩,
    octagon := ⟨16, 84⟩, cone := ⟨441, 2400⟩, pyramid := ⟨5, 18⟩,
    container := ⟨24, 132⟩, star := ⟨20, 108⟩ }

/-- The post-`Initialize` state at the sample mesh sizes. -/
def sampleApp : AppState := initAppState sampleMeshes 0 0

/-- The contents a frame resource ends up with once the dirty counters have
drained: slot `ObjCBIndex`/`MatCBIndex` of each buffer holds the transposed
constants of the corresponding item or material.  (`Fence` is still 0 —
stamping it is `Draw`'s job, modelled by `SyncStep`.) -/
def writtenFrameResource (m : ShapeMeshes) : FrameResource :=
  { fence := 0,
    objectCB := (buildRenderItems (shapeGeoOf m)).map (fun e => some (objConsts e)),
    materialCB := buildMaterials.map (fun p => some (matConsts p.2)) }

/-- The material each of the fifty render items references, in push order. -/
def matRefTable : List (Option String) :=
  ([ "diaMat", "stone0", "wedgeMat", "wedgeMat", "sky", "diaMat", "gold", "sky",
     "bricks0", "bricks0", "shineBlue", "shineRed", "tile0", "wedgeMat",
     "octahedronMat", "octahedronMat",
     "bricks0", "bricks0", "gold", "gold", "bricks0", "bricks0", "gold", "gold",
     "diaMat", "diaMat", "gold", "gold", "diaMat", "diaMat", "gold", "gold",
     "wedgeMat", "wedgeMat", "wedgeMat", "diaMat", "shineRed",
     "wallPurple", "wallPurple", "wallPurple", "wallPurple", "wallPurple",
     "wallPurple", "wallPurple", "wallPurple", "wallPurple", "wallPurple",
     "wallPurple", "wallPurple", "wallPurple" ]).map some

/-! ## Helper lemmas -/

/-- Transport a pointwise property along a computed projection table. -/
theorem forall_mem_of_map_eq {α β : Type} {l : List α} {f : α → β} {L : List β}
    (h : l.map f = L) {P : β → Prop} (hP : ∀ b ∈ L, P b) :
    ∀ a ∈ l, P (f a) := by
  intro a ha
  exact hP (f a) (h ▸ List.mem_map_of_mem f ha)

/-- Writing back the element already stored at a position is a no-op. -/
theorem list_set_of_getElem {α : Type} :
    ∀ (l : List α) (i : Nat) (x : α), l[i]? = some x → l.set i x = l := by
  intro l
  induction l with
  | nil => intro i x h; cases h
  | cons a t ih =>
    intro i x h
    cases i with
    | zero => simp_all
    | succ j => simpa using ih j x (by simpa using h)

/-- `updateObjectCBs` leaves the current frame-resource index unchanged. -/
theorem updateObjectCBs_idx (s : AppState) :
    (updateObjectCBs s).currFrameResourceIndex = s.currFrameResourceIndex := by
  unfold updateObjectCBs
  split <;> rfl

/-- `updateMaterialCBs` leaves the current frame-resource index unchanged. -/
theorem updateMaterialCBs_idx (s : AppState) :
    (updateMaterialCBs s).currFrameResourceIndex = s.currFrameResourceIndex := by
  unfold updateMaterialCBs
  split <;> rfl

/-- One update cycle advances the frame-resource index by `(+1) mod 3`. -/
theorem updateCycle_idx (s : AppState) :
    (updateCycle s).currFrameResourceIndex
      = (s.currFrameResourceIndex + 1) % gNumFrameResources := by
  unfold updateCycle
  rw [updateMaterialCBs_idx, updateObjectCBs_idx]
  rfl

/-- Starting from index 0, the index after `n` cycles is `n % 3`. -/
theorem iterate_updateCycle_idx (s0 : AppState) (h : s0.currFrameResourceIndex = 0) :
    ∀ n, (Nat.iterate updateCycle n s0).currFrameResourceIndex = n % 3 := by
  intro n
  induction n with
  | zero => simpa using h
  | succ k ih =>
    rw [Function.iterate_succ_apply', updateCycle_idx, ih]
    show (k % 3 + 1) % gNumFrameResources = (k + 1) % 3
    unfold gNumFrameResources
    omega

/-! ## Claims -/

/-- C5: `BuildShapeGeometry` registers the single geometry `"shapeGeo"` in
`mGeometries`, whose `DrawArgs` table holds exactly the fourteen submeshes
named box, grid, sphere, cylinder, diamond, wedge, octahedron,
triangularPrism, hexagon, octagon, cone, pyramid, container and star — one
per generated mesh, in the concatenation order — and each submesh's
`IndexCount` equals the index count of its mesh. -/
theorem claim_C5 (m : ShapeMeshes) :
    buildGeometries m.box m.grid m.sphere m.cylinder m.diamond m.wedge m.octahedron
        m.triangularPrism m.hexagon m.octagon m.cone m.pyramid m.container m.star
      = [("shapeGeo", shapeGeoOf m)] ∧
    (shapeGeoOf m).name = "shapeGeo" ∧
    (shapeGeoOf m).drawArgs.map Prod.fst = shapeNames ∧
    shapeNames.Nodup ∧
    (shapeGeoOf m).drawArgs.map (fun p => p.2.indexCount)
      = (meshList m).map (fun d => d.indexCount) :=
  ⟨rfl, rfl, rfl, by decide, rfl⟩

set_option maxHeartbeats 1600000 in
/-- C7: the scene content is a fixed data-entry table: `BuildMaterials`
produces exactly eleven materials with `MatCBIndex` 0..10, `BuildRenderItems`
produces exactly fifty render items with `ObjCBIndex` 0..49, each referencing
geometry `"shapeGeo"` and one of the eleven materials; the world and texture
transforms and material references are hard-coded — identical for any two
geometry inputs, hence across any two runs of construction. -/
theorem claim_C7 (m : ShapeMeshes) (g g' : MeshGeometry) :
    buildMaterials.length = 11 ∧
    buildMaterials.map (fun p => p.2.matCBIndex) = List.range 11 ∧
    (buildRenderItems (shapeGeoOf m)).length = 50 ∧
    (buildRenderItems (shapeGeoOf m)).map (fun e => e.objCBIndex) = List.range 50 ∧
    (buildRenderItems (shapeGeoOf m)).map (fun e => e.geo)
      = List.replicate 50 (some "shapeGeo") ∧
    (buildRenderItems (shapeGeoOf m)).map (fun e => e.mat) = matRefTable ∧
    matRefTable.all (fun o => (o.bind (fun nm => buildMaterials.lookup nm)).isSome) = true ∧
    (buildRenderItems g).map (fun e => e.world)
      = (buildRenderItems g').map (fun e => e.world) ∧
    (buildRenderItems g).map (fun e => e.texTransform)
      = (buildRenderItems g').map (fun e => e.texTransform) ∧
    (buildRenderItems g).map (fun e => e.mat)
      = (buildRenderItems g').map (fun e => e.mat) :=
  ⟨rfl, rfl, rfl, rfl, rfl, rfl, by decide, rfl, rfl, rfl⟩

/-- C2: the app is triple-buffered — `BuildFrameResources` constructs exactly
`gNumFrameResources = 3` frame resources, every `Update` advances
`mCurrFrameResourceIndex` to `(previous + 1) % 3`, and after `n` updates from
the initial state the index is `n % 3`, so it always lies in `{0, 1, 2}` and
the three frame resources are visited in fixed round-robin order. -/
theorem claim_C2 (m : ShapeMeshes) (mx my : ℤ)
    (objectCount materialCount n : Nat) :
    gNumFrameResources = 3 ∧
    (buildFrameResources objectCount materialCount).length = gNumFrameResources ∧
    (∀ s : AppState, (updateCycle s).currFrameResourceIndex
        = (s.currFrameResourceIndex + 1) % gNumFrameResources) ∧
    (Nat.iterate updateCycle n (initAppState m mx my)).currFrameResourceIndex = n % 3 ∧
    (Nat.iterate updateCycle n (initAppState m mx my)).currFrameResourceIndex < 3 := by
  refine ⟨rfl, by simp [buildFrameResources], updateCycle_idx, ?_, ?_⟩
  · exact iterate_updateCycle_idx _ rfl n
  · rw [iterate_updateCycle_idx _ rfl n]
    omega

set_option maxHeartbeats 1600000 in
/-- C8: every constant-buffer address computed by `DrawRenderItems` stays in
bounds — the fifty `ObjCBIndex` values are distinct and below
`mAllRitems.size() = 50`, the eleven `MatCBIndex` values are distinct and
below `mMaterials.size() = 11`, these are exactly the element counts with
which `BuildFrameResources` allocates each `ObjectCB` and `MaterialCB`, and
every render item's `Mat` and `Geo` pointer dereferences successfully. -/
theorem claim_C8 (m : ShapeMeshes) :
    ((buildRenderItems (shapeGeoOf m)).map (fun e => e.objCBIndex)
       = List.range (buildRenderItems (shapeGeoOf m)).length) ∧
    ((buildRenderItems (shapeGeoOf m)).map (fun e => e.objCBIndex)).Nodup ∧
    (∀ ri ∈ buildRenderItems (shapeGeoOf m),
       ri.objCBIndex < (buildRenderItems (shapeGeoOf m)).length) ∧
    (buildMaterials.map (fun p => p.2.matCBIndex) = List.range buildMaterials.length) ∧
    (buildMaterials.map (fun p => p.2.matCBIndex)).Nodup ∧
    (∀ p ∈ buildMaterials, p.2.matCBIndex < buildMaterials.length) ∧
    (∀ fr ∈ buildFrameResources (buildRenderItems (shapeGeoOf m)).length
              buildMaterials.length,
       fr.objectCB.length = (buildRenderItems (shapeGeoOf m)).length ∧
       fr.materialCB.length = buildMaterials.length) ∧
    (∀ ri ∈ buildRenderItems (shapeGeoOf m),
       (derefMatCBIndex buildMaterials ri.mat).isSome = true ∧
       (derefMatCBIndex buildMaterials ri.mat).getD buildMaterials.length
         < buildMaterials.length) ∧
    (∀ ri ∈ buildRenderItems (shapeGeoOf m), ri.geo = some "shapeGeo") ∧
    ((buildGeometries m.box m.grid m.sphere m.cylinder m.diamond m.wedge m.octahedron
        m.triangularPrism m.hexagon m.octagon m.cone m.pyramid m.container
        m.star).lookup "shapeGeo" = some (shapeGeoOf m)) := by
  have hidx : (buildRenderItems (shapeGeoOf m)).map (fun e => e.objCBIndex)
      = List.range 50 := rfl
  have hmat : (buildRenderItems (shapeGeoOf m)).map (fun e => e.mat) = matRefTable := rfl
  have hgeo : (buildRenderItems (shapeGeoOf m)).map (fun e => e.geo)
      = List.replicate 50 (some "shapeGeo") := rfl
  refine ⟨hidx, ?_, ?_, rfl, by decide, by decide, ?_, ?_, ?_, rfl⟩
  · rw [hidx]
    exact List.nodup_range 50
  · exact forall_mem_of_map_eq hidx (P := fun b => b < 50) (by decide)
  · intro fr hfr
    unfold buildFrameResources at hfr
    rcases List.mem_map.mp hfr with ⟨k, _, hk⟩
    subst hk
    exact ⟨by simp [mkFrameResource], by simp [mkFrameResource]⟩
  · exact forall_mem_of_map_eq hmat
      (P := fun o => (derefMatCBIndex buildMaterials o).isSome = true ∧
        (derefMatCBIndex buildMaterials o).getD 11 < 11) (by decide)
  · exact forall_mem_of_map_eq hgeo (P := fun o => o = some "shapeGeo") (by decide)

/-- `MathHelper::Clamp` lands in `[low, high]` whenever `low ≤ high`. -/
theorem mhClamp_mem {x low high : ℚ} (h : low ≤ high) :
    low ≤ mhClamp x low high ∧ mhClamp x low high ≤ high := by
  unfold mhClamp
  split_ifs with h1 h2
  · exact ⟨le_refl _, h⟩
  · exact ⟨h, le_refl _⟩
  · exact ⟨le_of_not_lt h1, le_of_not_lt h2⟩

/-- The camera-bound invariant of C9. -/
def cameraBounds (c : CameraState) : Prop :=
  (0.1 ≤ c.phi ∧ c.phi ≤ mathPi - 0.1) ∧ (5 ≤ c.radius ∧ c.radius ≤ 150)

/-- Every mouse handler preserves the camera bounds. -/
theorem applyMouseEvent_bounds (c : CameraState) (ev : MouseEvent)
    (h : cameraBounds c) : cameraBounds (applyMouseEvent c ev) := by
  rcases h with ⟨hphi, hrad⟩
  cases ev with
  | down x y => exact ⟨hphi, hrad⟩
  | up x y => exact ⟨hphi, hrad⟩
  | move lb rb x y =>
    show cameraBounds (onMouseMove lb rb x y c)
    unfold onMouseMove
    rcases lb with _ | _
    · rcases rb with _ | _
      · exact ⟨hphi, hrad⟩
      · simpa [cameraBounds] using ⟨hphi, mhClamp_mem (by norm_num)⟩
    · refine ⟨?_, hrad⟩
      simpa using mhClamp_mem (x := c.phi + xmConvertToRadians (0.25 * ((y : ℚ) - (c.lastMouseY : ℚ))))
        (show (0.1 : ℚ) ≤ mathPi - 0.1 by norm_num [mathPi])

/-- C9: from the initial `mPhi = 0.2π`, `mRadius = 35`, after any sequence of
mouse events (whatever the initial `mLastMousePos`), `mPhi` stays in
`[0.1, π − 0.1]` and `mRadius` stays in `[5, 150]`: a left drag clamps `mPhi`
after adding a quarter degree per pixel, a right drag clamps `mRadius` after
adding 0.05 unit per pixel, and no other handler touches either field. -/
theorem claim_C9 (mx my : ℤ) (evs : List MouseEvent) :
    (0.1 ≤ (applyMouseEvents (initCamera mx my) evs).phi ∧
      (applyMouseEvents (initCamera mx my) evs).phi ≤ mathPi - 0.1) ∧
    (5 ≤ (applyMouseEvents (initCamera mx my) evs).radius ∧
      (applyMouseEvents (initCamera mx my) evs).radius ≤ 150) := by
  have hinit : cameraBounds (initCamera mx my) := by
    constructor
    · constructor <;> norm_num [initCamera, mathPi]
    · constructor <;> norm_num [initCamera]
  have main : ∀ (l : List MouseEvent) (c : CameraState), cameraBounds c →
      cameraBounds (applyMouseEvents c l) := by
    intro l
    induction l with
    | nil => intro c hc; exact hc
    | cons e t ih =>
      intro c hc
      exact ih _ (applyMouseEvent_bounds c e hc)
  exact main evs _ hinit

/-- The inductive invariant of the fence loop: no frame resource carries a
fence value beyond `mCurrentFence`, the GPU never completes beyond the last
signalled value, and the index stays below `gNumFrameResources`. -/
def syncInv (s : SyncState) : Prop :=
  (∀ i, s.frFence i ≤ s.currentFence) ∧
  s.gpuCompleted ≤ s.currentFence ∧
  s.currFrameResourceIndex < gNumFrameResources

/-- Every step of the frame loop preserves `syncInv`. -/
theorem syncInv_step {s t : SyncState} (h : syncInv s) (hst : SyncStep s t) :
    syncInv t := by
  rcases h with ⟨hf, hg, hi⟩
  cases hst with
  | gpuProgress c hmono hsignalled => exact ⟨hf, hsignalled, hi⟩
  | update hphase hwait =>
    refine ⟨hf, hg, ?_⟩
    show (s.currFrameResourceIndex + 1) % gNumFrameResources < gNumFrameResources
    exact Nat.mod_lt _ (by norm_num [gNumFrameResources])
  | draw hphase =>
    refine ⟨?_, Nat.le_succ_of_le hg, hi⟩
    intro i
    by_cases hc : i = s.currFrameResourceIndex <;>
      simp [hc, Nat.le_succ_of_le (hf i)]

/-- `syncInv` holds in every reachable state. -/
theorem syncInv_reachable {s : SyncState} (h : SyncReachable s) : syncInv s := by
  induction h with
  | init => exact ⟨fun _ => le_refl _, le_refl _, by norm_num [initSyncState, gNumFrameResources]⟩
  | step _ hst ih => exact syncInv_step ih hst

/-- C1: the frame loop never reuses a frame resource before the GPU is done
with it.  In every reachable state: no per-resource fence value or completed
value exceeds `mCurrentFence`; `Update` can proceed past its wait exactly when
the cycled-to resource's fence is zero (never submitted) or already completed
by the GPU — so the resource's allocator is reset and its constant buffers
rewritten only after the GPU finished the commands submitted with it; and
`Draw` stamps the current frame resource with `++mCurrentFence`, a value
strictly greater than every fence value in the system, before signalling it. -/
theorem claim_C1 (s t : SyncState) (hreach : SyncReachable s) :
    ((∀ i, s.frFence i ≤ s.currentFence) ∧ s.gpuCompleted ≤ s.currentFence) ∧
    (s.inDraw = false → ¬ mustWait s →
      s.frFence (nextFrameIndex s.currFrameResourceIndex) = 0 ∨
      s.frFence (nextFrameIndex s.currFrameResourceIndex) ≤ s.gpuCompleted) ∧
    (SyncStep s t → s.inDraw = false → t.inDraw = true →
      t.frFence t.currFrameResourceIndex = 0 ∨
      t.frFence t.currFrameResourceIndex ≤ s.gpuCompleted) ∧
    (SyncStep s t → s.inDraw = true → t.inDraw = false →
      t.currentFence = s.currentFence + 1 ∧
      t.frFence s.currFrameResourceIndex = s.currentFence + 1 ∧
      (∀ i, s.frFence i < t.currentFence)) := by
  obtain ⟨hf, hg, hi⟩ := syncInv_reachable hreach
  refine ⟨⟨hf, hg⟩, ?_, ?_, ?_⟩
  · intro _ hnw
    unfold mustWait at hnw
    push_neg at hnw
    by_cases h0 : s.frFence (nextFrameIndex s.currFrameResourceIndex) = 0
    · exact Or.inl h0
    · exact Or.inr (hnw h0)
  · intro hst hs ht
    cases hst with
    | gpuProgress c hmono hsignalled => rw [hs] at ht; cases ht
    | update hphase hwait =>
      unfold mustWait at hwait
      push_neg at hwait
      by_cases h0 : s.frFence (nextFrameIndex s.currFrameResourceIndex) = 0
      · exact Or.inl h0
      · exact Or.inr (hwait h0)
    | draw hphase => rw [hphase] at hs; cases hs
  · intro hst hs ht
    cases hst with
    | gpuProgress c hmono hsignalled => rw [hs] at ht; cases ht
    | update hphase hwait => rw [hphase] at hs; cases hs
    | draw hphase =>
      refine ⟨rfl, by simp, ?_⟩
      intro i
      exact Nat.lt_succ_of_le (hf i)

/-- Witness for C1: both hypotheses are satisfiable — the initial state is
reachable — and the conclusion evaluates there. -/
theorem claim_C1_witness :
    ((∀ i, initSyncState.frFence i ≤ initSyncState.currentFence) ∧
      initSyncState.gpuCompleted ≤ initSyncState.currentFence) ∧
    (initSyncState.inDraw = false → ¬ mustWait initSyncState →
      initSyncState.frFence (nextFrameIndex initSyncState.currFrameResourceIndex) = 0 ∨
      initSyncState.frFence (nextFrameIndex initSyncState.currFrameResourceIndex)
        ≤ initSyncState.gpuCompleted) ∧
    (SyncStep initSyncState initSyncState → initSyncState.inDraw = false →
      initSyncState.inDraw = true →
      initSyncState.frFence initSyncState.currFrameResourceIndex = 0 ∨
      initSyncState.frFence initSyncState.currFrameResourceIndex
        ≤ initSyncState.gpuCompleted) ∧
    (SyncStep initSyncState initSyncState → initSyncState.inDraw = true →
      initSyncState.inDraw = false →
      initSyncState.currentFence = initSyncState.currentFence + 1 ∧
      initSyncState.frFence initSyncState.currFrameResourceIndex
        = initSyncState.currentFence + 1 ∧
      (∀ i, initSyncState.frFence i < initSyncState.currentFence)) :=
  claim_C1 initSyncState initSyncState SyncReachable.init

/-- Folding push-back over a list appends it to the accumulator. -/
theorem foldl_push_back {α : Type} :
    ∀ (l acc : List α), l.foldl (fun a e => a ++ [e]) acc = acc ++ l := by
  intro l
  induction l with
  | nil => intro acc; simp
  | cons e t ih => intro acc; simp [ih]

/-- The fallible concatenating fold of `drawRenderItems` succeeds with the
flattened pointwise results when every element succeeds. -/
theorem foldr_bind_concat {α β : Type} (f : α → Option (List β)) (g : α → List β) :
    ∀ l : List α, (∀ a ∈ l, f a = some (g a)) →
      l.foldr (fun a acc => (f a).bind (fun cs => acc.map (fun rest => cs ++ rest)))
          (some [])
        = some ((l.map g).flatten) := by
  intro l
  induction l with
  | nil => intro _; rfl
  | cons a t ih =>
    intro h
    have ha := h a (List.mem_cons_self a t)
    have ht := ih (fun b hb => h b (List.mem_cons_of_mem a hb))
    simp [ha, ht]

/-- C4: every frame draws every render item exactly once in construction
order — `mOpaqueRitems` is `mAllRitems` element for element in the same
order; and for each item in list order `DrawRenderItems` binds the object
buffer at base + `ObjCBIndex * objCBByteSize`, the item's material's buffer
at base + `MatCBIndex * matCBByteSize`, and records
`DrawIndexedInstanced(IndexCount, 1, StartIndexLocation, BaseVertexLocation,
0)`. -/
theorem claim_C4 (m : ShapeMeshes) (objBase matBase objCBByteSize matCBByteSize : Nat) :
    buildOpaqueRitems (buildRenderItems (shapeGeoOf m)) = buildRenderItems (shapeGeoOf m) ∧
    (∀ ri ∈ buildRenderItems (shapeGeoOf m), ∀ mi,
      derefMatCBIndex buildMaterials ri.mat = some mi →
      itemCommands buildMaterials objBase matBase objCBByteSize matCBByteSize ri
        = some [ GpuCommand.setVertexBuffers "shapeGeo",
                 GpuCommand.setIndexBuffer "shapeGeo",
                 GpuCommand.setPrimitiveTopology ri.primitiveTopology,
                 GpuCommand.setGraphicsRootCBV 0 (objBase + ri.objCBIndex * objCBByteSize),
                 GpuCommand.setGraphicsRootCBV 1 (matBase + mi * matCBByteSize),
                 GpuCommand.drawIndexedInstanced ri.indexCount 1 ri.startIndexLocation
                   ri.baseVertexLocation 0 ]) ∧
    drawRenderItems buildMaterials objBase matBase objCBByteSize matCBByteSize
        (buildOpaqueRitems (buildRenderItems (shapeGeoOf m)))
      = some (((buildRenderItems (shapeGeoOf m)).map (fun ri =>
          [ GpuCommand.setVertexBuffers "shapeGeo",
            GpuCommand.setIndexBuffer "shapeGeo",
            GpuCommand.setPrimitiveTopology ri.primitiveTopology,
            GpuCommand.setGraphicsRootCBV 0 (objBase + ri.objCBIndex * objCBByteSize),
            GpuCommand.setGraphicsRootCBV 1
              (matBase + (derefMatCBIndex buildMaterials ri.mat).getD 0 * matCBByteSize),
            GpuCommand.drawIndexedInstanced ri.indexCount 1 ri.startIndexLocation
              ri.baseVertexLocation 0 ])).flatten) := by
  have hgeo : (buildRenderItems (shapeGeoOf m)).map (fun e => e.geo)
      = List.replicate 50 (some "shapeGeo") := rfl
  have hmat : (buildRenderItems (shapeGeoOf m)).map (fun e => e.mat) = matRefTable := rfl
  have hgeo' : ∀ ri ∈ buildRenderItems (shapeGeoOf m), ri.geo = some "shapeGeo" :=
    forall_mem_of_map_eq hgeo (P := fun o => o = some "shapeGeo") (by decide)
  have hsome : ∀ ri ∈ buildRenderItems (shapeGeoOf m),
      (derefMatCBIndex buildMaterials ri.mat).isSome = true :=
    forall_mem_of_map_eq hmat
      (P := fun o => (derefMatCBIndex buildMaterials o).isSome = true) (by decide)
  have hopq : buildOpaqueRitems (buildRenderItems (shapeGeoOf m))
      = buildRenderItems (shapeGeoOf m) := by
    unfold buildOpaqueRitems
    simpa using foldl_push_back (buildRenderItems (shapeGeoOf m)) []
  have hitem : ∀ ri ∈ buildRenderItems (shapeGeoOf m), ∀ mi,
      derefMatCBIndex buildMaterials ri.mat = some mi →
      itemCommands buildMaterials objBase matBase objCBByteSize matCBByteSize ri
        = some [ GpuCommand.setVertexBuffers "shapeGeo",
                 GpuCommand.setIndexBuffer "shapeGeo",
                 GpuCommand.setPrimitiveTopology ri.primitiveTopology,
                 GpuCommand.setGraphicsRootCBV 0 (objBase + ri.objCBIndex * objCBByteSize),
                 GpuCommand.setGraphicsRootCBV 1 (matBase + mi * matCBByteSize),
                 GpuCommand.drawIndexedInstanced ri.indexCount 1 ri.startIndexLocation
                   ri.baseVertexLocation 0 ] := by
    intro ri hri mi hmi
    unfold itemCommands
    rw [hgeo' ri hri, hmi]
    rfl
  refine ⟨hopq, hitem, ?_⟩
  rw [hopq]
  unfold drawRenderItems
  refine foldr_bind_concat _ _ _ ?_
  intro ri hri
  obtain ⟨mi, hmi⟩ := Option.isSome_iff_exists.mp (hsome ri hri)
  have hr := hitem ri hri mi hmi
  simp only [hr, hmi, Option.getD_some]

/-- One `UpdateObjectCBs` iteration in closed form: the item is appended with
its counter decremented when positive, and the buffer receives the item's
write when dirty. -/
theorem objectCBStep_eq (a : List RenderItem) (cb : List (Option ObjectConstants))
    (e : RenderItem) :
    objectCBStep (a, cb) e = (a ++ [objDec e], objWrite cb e) := by
  unfold objectCBStep objWrite objDec objConsts dirtyDec
  by_cases h : 0 < e.numFramesDirty
  · rw [if_pos h, if_pos h, if_pos h]
  · rw [if_neg h, if_neg h, if_neg h]

/-- One `UpdateMaterialCBs` iteration in closed form. -/
theorem materialCBStep_eq (a : List (String × Material))
    (cb : List (Option MaterialConstants)) (e : String × Material) :
    materialCBStep (a, cb) e = (a ++ [matDec e], matWrite cb e) := by
  unfold materialCBStep matWrite matDec matConsts dirtyDec
  by_cases h : 0 < e.2.numFramesDirty
  · rw [if_pos h, if_pos h, if_pos h]
  · rw [if_neg h, if_neg h, if_neg h]

/-- The item-list side of the `UpdateObjectCBs` fold: every item is rebuilt
with `NumFramesDirty` decremented when positive. -/
theorem foldl_objectCBStep_fst (l : List RenderItem) :
    ∀ (a : List RenderItem) (cb : List (Option ObjectConstants)),
      (l.foldl objectCBStep (a, cb)).1 = a ++ l.map objDec := by
  induction l with
  | nil => intro a cb; simp
  | cons e t ih =>
    intro a cb
    show (t.foldl objectCBStep (objectCBStep (a, cb) e)).1 = _
    rw [objectCBStep_eq, ih]
    simp

/-- The buffer side of the `UpdateObjectCBs` fold: the dirty items' writes,
in order. -/
theorem foldl_objectCBStep_snd (l : List RenderItem) :
    ∀ (a : List RenderItem) (cb : List (Option ObjectConstants)),
      (l.foldl objectCBStep (a, cb)).2 = l.foldl objWrite cb := by
  induction l with
  | nil => intro a cb; rfl
  | cons e t ih =>
    intro a cb
    show (t.foldl objectCBStep (objectCBStep (a, cb) e)).2
        = t.foldl objWrite (objWrite cb e)
    rw [objectCBStep_eq, ih]

/-- The material-list side of the `UpdateMaterialCBs` fold. -/
theorem foldl_materialCBStep_fst (l : List (String × Material)) :
    ∀ (a : List (String × Material)) (cb : List (Option MaterialConstants)),
      (l.foldl materialCBStep (a, cb)).1 = a ++ l.map matDec := by
  induction l with
  | nil => intro a cb; simp
  | cons e t ih =>
    intro a cb
    show (t.foldl materialCBStep (materialCBStep (a, cb) e)).1 = _
    rw [materialCBStep_eq, ih]
    simp

/-- The buffer side of the `UpdateMaterialCBs` fold. -/
theorem foldl_materialCBStep_snd (l : List (String × Material)) :
    ∀ (a : List (String × Material)) (cb : List (Option MaterialConstants)),
      (l.foldl materialCBStep (a, cb)).2 = l.foldl matWrite cb := by
  induction l with
  | nil => intro a cb; rfl
  | cons e t ih =>
    intro a cb
    show (t.foldl materialCBStep (materialCBStep (a, cb) e)).2
        = t.foldl matWrite (matWrite cb e)
    rw [materialCBStep_eq, ih]

/-- Closed form of `updateObjectCBs` when the current frame resource exists. -/
theorem updateObjectCBs_eq (s : AppState) (fr : FrameResource)
    (h : s.frameResources[s.currFrameResourceIndex]? = some fr) :
    updateObjectCBs s = { s with
      allRitems := s.allRitems.map objDec,
      frameResources := s.frameResources.set s.currFrameResourceIndex
        { fr with objectCB := s.allRitems.foldl objWrite fr.objectCB } } := by
  unfold updateObjectCBs
  rw [h]
  simp [foldl_objectCBStep_fst, foldl_objectCBStep_snd]

/-- `updateObjectCBs` is the identity when the index is out of range. -/
theorem updateObjectCBs_none (s : AppState)
    (h : s.frameResources[s.currFrameResourceIndex]? = none) :
    updateObjectCBs s = s := by
  unfold updateObjectCBs
  rw [h]

/-- Closed form of `updateMaterialCBs` when the current frame resource
exists. -/
theorem updateMaterialCBs_eq (s : AppState) (fr : FrameResource)
    (h : s.frameResources[s.currFrameResourceIndex]? = some fr) :
    updateMaterialCBs s = { s with
      materials := s.materials.map matDec,
      frameResources := s.frameResources.set s.currFrameResourceIndex
        { fr with materialCB := s.materials.foldl matWrite fr.materialCB } } := by
  unfold updateMaterialCBs
  rw [h]
  simp [foldl_materialCBStep_fst, foldl_materialCBStep_snd]

/-- `updateMaterialCBs` is the identity when the index is out of range. -/
theorem updateMaterialCBs_none (s : AppState)
    (h : s.frameResources[s.currFrameResourceIndex]? = none) :
    updateMaterialCBs s = s := by
  unfold updateMaterialCBs
  rw [h]

/-- When all items are dirty and their `ObjCBIndex` values are consecutive
from `pre.length`, one `UpdateObjectCBs` pass overwrites exactly the `old`
region with every item's constants, in slot order. -/
theorem foldl_objWrite_all :
    ∀ (l : List RenderItem) (pre old : List (Option ObjectConstants)),
      l.map (fun e => e.objCBIndex) = List.range' pre.length l.length →
      (∀ e ∈ l, 0 < e.numFramesDirty) →
      old.length = l.length →
      l.foldl objWrite (pre ++ old) = pre ++ l.map (fun e => some (objConsts e)) := by
  intro l
  induction l with
  | nil =>
    intro pre old h1 h2 h3
    have hold : old = [] := List.length_eq_zero.mp h3
    simp [hold]
  | cons e t ih =>
    intro pre old h1 h2 h3
    cases old with
    | nil => simp at h3
    | cons o old' =>
      have h1' : e.objCBIndex :: t.map (fun x => x.objCBIndex)
          = pre.length :: List.range' (pre.length + 1) t.length := by
        simpa [List.range'_succ] using h1
      have hidx : e.objCBIndex = pre.length := (List.cons.injEq _ _ _ _ ▸ h1').1
      have htl : t.map (fun x => x.objCBIndex) = List.range' (pre.length + 1) t.length :=
        (List.cons.injEq _ _ _ _ ▸ h1').2
      have hd := h2 e (List.mem_cons_self e t)
      have hw : objWrite (pre ++ o :: old') e = (pre ++ [some (objConsts e)]) ++ old' := by
        unfold objWrite copyData
        rw [if_pos hd, hidx, List.set_append_right _ _ (le_refl _)]
        simp
      show t.foldl objWrite (objWrite (pre ++ o :: old') e) = _
      rw [hw, ih (pre ++ [some (objConsts e)]) old'
        (by simpa using htl)
        (fun b hb => h2 b (List.mem_cons_of_mem e hb))
        (by simpa using Nat.succ_injective (by simpa using h3))]
      simp

/-- The material-buffer analogue of `foldl_objWrite_all`. -/
theorem foldl_matWrite_all :
    ∀ (l : List (String × Material)) (pre old : List (Option MaterialConstants)),
      l.map (fun p => p.2.matCBIndex) = List.range' pre.length l.length →
      (∀ p ∈ l, 0 < p.2.numFramesDirty) →
      old.length = l.length →
      l.foldl matWrite (pre ++ old) = pre ++ l.map (fun p => some (matConsts p.2)) := by
  intro l
  induction l with
  | nil =>
    intro pre old h1 h2 h3
    have hold : old = [] := List.length_eq_zero.mp h3
    simp [hold]
  | cons e t ih =>
    intro pre old h1 h2 h3
    cases old with
    | nil => simp at h3
    | cons o old' =>
      have h1' : e.2.matCBIndex :: t.map (fun x => x.2.matCBIndex)
          = pre.length :: List.range' (pre.length + 1) t.length := by
        simpa [List.range'_succ] using h1
      have hidx : e.2.matCBIndex = pre.length := (List.cons.injEq _ _ _ _ ▸ h1').1
      have htl : t.map (fun x => x.2.matCBIndex) = List.range' (pre.length + 1) t.length :=
        (List.cons.injEq _ _ _ _ ▸ h1').2
      have hd := h2 e (List.mem_cons_self e t)
      have hw : matWrite (pre ++ o :: old') e = (pre ++ [some (matConsts e.2)]) ++ old' := by
        unfold matWrite copyData
        rw [if_pos hd, hidx, List.set_append_right _ _ (le_refl _)]
        simp
      show t.foldl matWrite (matWrite (pre ++ o :: old') e) = _
      rw [hw, ih (pre ++ [some (matConsts e.2)]) old'
        (by simpa using htl)
        (fun b hb => h2 b (List.mem_cons_of_mem e hb))
        (by simpa using Nat.succ_injective (by simpa using h3))]
      simp

/-- With every counter at zero, an `UpdateObjectCBs` pass writes nothing. -/
theorem foldl_objWrite_zero :
    ∀ (l : List RenderItem) (cb : List (Option ObjectConstants)),
      (∀ e ∈ l, e.numFramesDirty = 0) → l.foldl objWrite cb = cb := by
  intro l
  induction l with
  | nil => intro cb _; rfl
  | cons e t ih =>
    intro cb h
    have he := h e (List.mem_cons_self e t)
    show t.foldl objWrite (objWrite cb e) = cb
    have hw : objWrite cb e = cb := by
      unfold objWrite
      rw [if_neg (by omega)]
    rw [hw]
    exact ih cb (fun b hb => h b (List.mem_cons_of_mem e hb))

/-- With every counter at zero, an `UpdateMaterialCBs` pass writes nothing. -/
theorem foldl_matWrite_zero :
    ∀ (l : List (String × Material)) (cb : List (Option MaterialConstants)),
      (∀ p ∈ l, p.2.numFramesDirty = 0) → l.foldl matWrite cb = cb := by
  intro l
  induction l with
  | nil => intro cb _; rfl
  | cons e t ih =>
    intro cb h
    have he := h e (List.mem_cons_self e t)
    show t.foldl matWrite (matWrite cb e) = cb
    have hw : matWrite cb e = cb := by
      unfold matWrite
      rw [if_neg (by omega)]
    rw [hw]
    exact ih cb (fun b hb => h b (List.mem_cons_of_mem e hb))

/-- Closed form of one full `Update` cycle when the cycled-to frame resource
exists: the index advances, both CPU-side dirty lists are decremented, and
only that frame resource's two buffers receive the writes. -/
theorem updateCycle_eq (s : AppState) (fr : FrameResource)
    (h : s.frameResources[(s.currFrameResourceIndex + 1) % gNumFrameResources]? = some fr) :
    updateCycle s = {
      frameResources := s.frameResources.set
        ((s.currFrameResourceIndex + 1) % gNumFrameResources)
        { fence := fr.fence,
          objectCB := s.allRitems.foldl objWrite fr.objectCB,
          materialCB := s.materials.foldl matWrite fr.materialCB },
      currFrameResourceIndex := (s.currFrameResourceIndex + 1) % gNumFrameResources,
      allRitems := s.allRitems.map objDec,
      materials := s.materials.map matDec,
      camera := s.camera } := by
  have hlt : (s.currFrameResourceIndex + 1) % gNumFrameResources
      < s.frameResources.length := by
    rcases List.getElem?_eq_some.mp h with ⟨hl, _⟩
    exact hl
  show updateMaterialCBs (updateObjectCBs (advanceFrameResourceIndex s)) = _
  rw [updateObjectCBs_eq (advanceFrameResourceIndex s) fr h]
  rw [updateMaterialCBs_eq _
    { fence := fr.fence,
      objectCB := (advanceFrameResourceIndex s).allRitems.foldl objWrite fr.objectCB,
      materialCB := fr.materialCB }
    (by
      show (s.frameResources.set ((s.currFrameResourceIndex + 1) % gNumFrameResources) _)[
        (s.currFrameResourceIndex + 1) % gNumFrameResources]? = _
      rw [List.getElem?_set_self (by simpa using hlt)])]
  simp [List.set_set]
  exact ⟨rfl, rfl, rfl, rfl, rfl⟩

/-- Item-list projection of `updateCycle_eq`. -/
theorem updateCycle_items_eq (s : AppState) (fr : FrameResource)
    (h : s.frameResources[(s.currFrameResourceIndex + 1) % gNumFrameResources]? = some fr) :
    (updateCycle s).allRitems = s.allRitems.map objDec := by
  rw [updateCycle_eq s fr h]

/-- Material-list projection of `updateCycle_eq`. -/
theorem updateCycle_mats_eq (s : AppState) (fr : FrameResource)
    (h : s.frameResources[(s.currFrameResourceIndex + 1) % gNumFrameResources]? = some fr) :
    (updateCycle s).materials = s.materials.map matDec := by
  rw [updateCycle_eq s fr h]

/-- Frame-resource projection of `updateCycle_eq`. -/
theorem updateCycle_frs_eq (s : AppState) (fr : FrameResource)
    (h : s.frameResources[(s.currFrameResourceIndex + 1) % gNumFrameResources]? = some fr) :
    (updateCycle s).frameResources = s.frameResources.set
      ((s.currFrameResourceIndex + 1) % gNumFrameResources)
      { fence := fr.fence,
        objectCB := s.allRitems.foldl objWrite fr.objectCB,
        materialCB := s.materials.foldl matWrite fr.materialCB } := by
  rw [updateCycle_eq s fr h]

/-- The dirty-count trajectory of the real scene: starting from
`NumFramesDirty = 3` on all fifty items and eleven materials, cycle `k`
leaves every counter at `3 - min k 3`, and the frame-resource list keeps
length 3. -/
theorem iterate_dirty (m : ShapeMeshes) (mx my : ℤ) : ∀ k : Nat,
    ((Nat.iterate updateCycle k (initAppState m mx my)).allRitems.map
        (fun e => e.numFramesDirty) = List.replicate 50 (3 - min k 3)) ∧
    ((Nat.iterate updateCycle k (initAppState m mx my)).materials.map
        (fun p => p.2.numFramesDirty) = List.replicate 11 (3 - min k 3)) ∧
    ((Nat.iterate updateCycle k (initAppState m mx my)).frameResources.length = 3) := by
  intro k
  induction k with
  | zero => exact ⟨rfl, rfl, rfl⟩
  | succ k ih =>
    obtain ⟨hobj, hmat, hlen⟩ := ih
    have hrlt : ((Nat.iterate updateCycle k (initAppState m mx my)).currFrameResourceIndex + 1)
        % gNumFrameResources
        < (Nat.iterate updateCycle k (initAppState m mx my)).frameResources.length := by
      rw [hlen]
      exact Nat.mod_lt _ (by norm_num [gNumFrameResources])
    obtain ⟨fr, hfr⟩ : ∃ fr,
        (Nat.iterate updateCycle k (initAppState m mx my)).frameResources[
          ((Nat.iterate updateCycle k (initAppState m mx my)).currFrameResourceIndex + 1)
            % gNumFrameResources]? = some fr :=
      ⟨_, List.getElem?_eq_getElem hrlt⟩
    rw [Function.iterate_succ_apply']
    refine ⟨?_, ?_, ?_⟩
    · rw [updateCycle_items_eq _ fr hfr, List.map_map,
        show ((fun e : RenderItem => e.numFramesDirty) ∘ objDec)
          = (dirtyDec ∘ fun e : RenderItem => e.numFramesDirty) from rfl,
        ← List.map_map, hobj, List.map_replicate]
      congr 1
      unfold dirtyDec
      split <;> omega
    · rw [updateCycle_mats_eq _ fr hfr, List.map_map,
        show ((fun p : String × Material => p.2.numFramesDirty) ∘ matDec)
          = (dirtyDec ∘ fun p : String × Material => p.2.numFramesDirty) from rfl,
        ← List.map_map, hmat, List.map_replicate]
      congr 1
      unfold dirtyDec
      split <;> omega
    · rw [updateCycle_frs_eq _ fr hfr]
      simp [hlen]

/-- Once every counter has drained, an update cycle only advances the
index. -/
theorem updateCycle_stable (s : AppState)
    (hobj : ∀ e ∈ s.allRitems, e.numFramesDirty = 0)
    (hmat : ∀ p ∈ s.materials, p.2.numFramesDirty = 0) :
    updateCycle s = advanceFrameResourceIndex s := by
  cases hget : s.frameResources[(s.currFrameResourceIndex + 1) % gNumFrameResources]? with
  | none =>
    show updateMaterialCBs (updateObjectCBs (advanceFrameResourceIndex s)) = _
    rw [updateObjectCBs_none _ hget, updateMaterialCBs_none _ hget]
  | some fr =>
    have hitems : s.allRitems.map objDec = s.allRitems := by
      rw [List.map_congr_left (g := fun e => e) ?_, List.map_id']
      intro e he
      have h0 := hobj e he
      show objDec e = e
      unfold objDec dirtyDec
      rw [if_neg (by omega)]
    have hmats : s.materials.map matDec = s.materials := by
      rw [List.map_congr_left (g := fun p => p) ?_, List.map_id']
      intro p hp
      have h0 := hmat p hp
      show matDec p = p
      unfold matDec dirtyDec
      rw [if_neg (by omega)]
    rw [updateCycle_eq s fr hget, hitems, hmats,
      foldl_objWrite_zero _ _ hobj, foldl_matWrite_zero _ _ hmat]
    have hset : s.frameResources.set
        ((s.currFrameResourceIndex + 1) % gNumFrameResources)
        { fence := fr.fence, objectCB := fr.objectCB, materialCB := fr.materialCB }
        = s.frameResources :=
      list_set_of_getElem _ _ _ hget
    rw [hset]
    rfl

set_option maxHeartbeats 3200000 in
/-- After exactly three update cycles every one of the three frame resources
holds the full written buffers: cycle 0 writes frame resource 1, cycle 1
writes 2, cycle 2 writes 0. -/
theorem iterate3_frameResources (m : ShapeMeshes) (mx my : ℤ) :
    (Nat.iterate updateCycle 3 (initAppState m mx my)).frameResources
      = List.replicate 3 (writtenFrameResource m) := by
  have hd0 : (initAppState m mx my).allRitems.map (fun e => e.numFramesDirty)
      = List.replicate 50 3 := rfl
  have hd1 : ((initAppState m mx my).allRitems.map objDec).map
      (fun e => e.numFramesDirty) = List.replicate 50 2 := rfl
  have hd2 : (((initAppState m mx my).allRitems.map objDec).map objDec).map
      (fun e => e.numFramesDirty) = List.replicate 50 1 := rfl
  have hW0 : (initAppState m mx my).allRitems.foldl objWrite
      (mkFrameResource 50 11).objectCB
      = (buildRenderItems (shapeGeoOf m)).map (fun e => some (objConsts e)) := by
    simpa using foldl_objWrite_all (initAppState m mx my).allRitems []
      (mkFrameResource 50 11).objectCB rfl
      (forall_mem_of_map_eq hd0 (P := fun d => 0 < d) (by decide))
      rfl
  have hW1 : ((initAppState m mx my).allRitems.map objDec).foldl objWrite
      (mkFrameResource 50 11).objectCB
      = (buildRenderItems (shapeGeoOf m)).map (fun e => some (objConsts e)) := by
    simpa using foldl_objWrite_all ((initAppState m mx my).allRitems.map objDec) []
      (mkFrameResource 50 11).objectCB rfl
      (forall_mem_of_map_eq hd1 (P := fun d => 0 < d) (by decide))
      rfl
  have hW2 : ((((initAppState m mx my).allRitems.map objDec).map objDec).foldl objWrite
      (mkFrameResource 50 11).objectCB)
      = (buildRenderItems (shapeGeoOf m)).map (fun e => some (objConsts e)) := by
    simpa using foldl_objWrite_all
      (((initAppState m mx my).allRitems.map objDec).map objDec)
      [] (mkFrameResource 50 11).objectCB rfl
      (forall_mem_of_map_eq hd2 (P := fun d => 0 < d) (by decide))
      rfl
  have hM0 : (initAppState m mx my).materials.foldl matWrite
      (mkFrameResource 50 11).materialCB
      = buildMaterials.map (fun p => some (matConsts p.2)) := rfl
  have hM1 : ((initAppState m mx my).materials.map matDec).foldl matWrite
      (mkFrameResource 50 11).materialCB
      = buildMaterials.map (fun p => some (matConsts p.2)) := rfl
  have hM2 : ((((initAppState m mx my).materials.map matDec).map matDec).foldl matWrite
      (mkFrameResource 50 11).materialCB)
      = buildMaterials.map (fun p => some (matConsts p.2)) := rfl
  have hF1 : (updateCycle (initAppState m mx my)).frameResources
      = (initAppState m mx my).frameResources.set 1 (writtenFrameResource m) := by
    rw [updateCycle_frs_eq (initAppState m mx my) (mkFrameResource 50 11) rfl,
      hW0, hM0]
    rfl
  have hI1 : (updateCycle (initAppState m mx my)).allRitems
      = (initAppState m mx my).allRitems.map objDec :=
    updateCycle_items_eq (initAppState m mx my) (mkFrameResource 50 11) rfl
  have hN1 : (updateCycle (initAppState m mx my)).materials
      = (initAppState m mx my).materials.map matDec :=
    updateCycle_mats_eq (initAppState m mx my) (mkFrameResource 50 11) rfl
  have hidx1 : (updateCycle (initAppState m mx my)).currFrameResourceIndex = 1 :=
    (updateCycle_idx _).trans rfl
  have h2get : (updateCycle (initAppState m mx my)).frameResources[
      ((updateCycle (initAppState m mx my)).currFrameResourceIndex + 1)
        % gNumFrameResources]? = some (mkFrameResource 50 11) := by
    rw [hF1, hidx1]
    rfl
  have hF2 : (updateCycle (updateCycle (initAppState m mx my))).frameResources
      = ((initAppState m mx my).frameResources.set 1 (writtenFrameResource m)).set 2
          (writtenFrameResource m) := by
    rw [updateCycle_frs_eq _ (mkFrameResource 50 11) h2get, hF1, hI1, hN1, hidx1,
      hW1, hM1]
    rfl
  have hI2 : (updateCycle (updateCycle (initAppState m mx my))).allRitems
      = ((initAppState m mx my).allRitems.map objDec).map objDec := by
    rw [updateCycle_items_eq _ (mkFrameResource 50 11) h2get, hI1]
  have hN2 : (updateCycle (updateCycle (initAppState m mx my))).materials
      = ((initAppState m mx my).materials.map matDec).map matDec := by
    rw [updateCycle_mats_eq _ (mkFrameResource 50 11) h2get, hN1]
  have hidx2 : (updateCycle (updateCycle (initAppState m mx my))).currFrameResourceIndex
      = 2 := by
    rw [updateCycle_idx, hidx1]
    rfl
  have h3get : (updateCycle (updateCycle (initAppState m mx my))).frameResources[
      ((updateCycle (updateCycle (initAppState m mx my))).currFrameResourceIndex + 1)
        % gNumFrameResources]? = some (mkFrameResource 50 11) := by
    rw [hF2, hidx2]
    rfl
  have hF3 : (updateCycle (updateCycle (updateCycle (initAppState m mx my)))).frameResources
      = (((initAppState m mx my).frameResources.set 1 (writtenFrameResource m)).set 2
          (writtenFrameResource m)).set 0 (writtenFrameResource m) := by
    rw [updateCycle_frs_eq _ (mkFrameResource 50 11) h3get, hF2, hI2, hN2, hidx2,
      hW2, hM2]
    rfl
  have e3 : Nat.iterate updateCycle 3 (initAppState m mx my)
      = updateCycle (Nat.iterate updateCycle 2 (initAppState m mx my)) :=
    Function.iterate_succ_apply' updateCycle 2 (initAppState m mx my)
  have e2 : Nat.iterate updateCycle 2 (initAppState m mx my)
      = updateCycle (Nat.iterate updateCycle 1 (initAppState m mx my)) :=
    Function.iterate_succ_apply' updateCycle 1 (initAppState m mx my)
  have e1 : Nat.iterate updateCycle 1 (initAppState m mx my)
      = updateCycle (Nat.iterate updateCycle 0 (initAppState m mx my)) :=
    Function.iterate_succ_apply' updateCycle 0 (initAppState m mx my)
  rw [e3, e2, e1, Function.iterate_zero_apply, hF3]
  rfl

/-- From cycle 3 on, the frame resources, items and materials no longer
change. -/
theorem iterate_stable (m : ShapeMeshes) (mx my : ℤ) : ∀ n : Nat, 3 ≤ n →
    ((Nat.iterate updateCycle n (initAppState m mx my)).frameResources
      = (Nat.iterate updateCycle 3 (initAppState m mx my)).frameResources) ∧
    ((Nat.iterate updateCycle n (initAppState m mx my)).allRitems
      = (Nat.iterate updateCycle 3 (initAppState m mx my)).allRitems) ∧
    ((Nat.iterate updateCycle n (initAppState m mx my)).materials
      = (Nat.iterate updateCycle 3 (initAppState m mx my)).materials) := by
  intro n
  induction n with
  | zero => omega
  | succ n ih =>
    intro hn
    rcases Nat.lt_or_ge n 3 with hlt | hge
    · have : n + 1 = 3 := by omega
      rw [this]
      exact ⟨rfl, rfl, rfl⟩
    · obtain ⟨hF, hI, hM⟩ := ih hge
      obtain ⟨hobj, hmat, _⟩ := iterate_dirty m mx my n
      have hd : 3 - min n 3 = 0 := by omega
      rw [hd] at hobj hmat
      have hstable : updateCycle (Nat.iterate updateCycle n (initAppState m mx my))
          = advanceFrameResourceIndex (Nat.iterate updateCycle n (initAppState m mx my)) := by
        refine updateCycle_stable _ ?_ ?_
        · exact forall_mem_of_map_eq hobj (P := fun d => d = 0)
            (fun b hb => List.eq_of_mem_replicate hb)
        · exact forall_mem_of_map_eq hmat (P := fun d => d = 0)
            (fun b hb => List.eq_of_mem_replicate hb)
      rw [Function.iterate_succ_apply', hstable]
      exact ⟨hF, hI, hM⟩

/-- The first `n ≥ 3` naturals below 3 are exactly 0, 1, 2. -/
theorem filter_range_lt3 : ∀ n : Nat, 3 ≤ n →
    (List.range n).filter (fun k => decide (k < 3)) = [0, 1, 2] := by
  intro n
  induction n with
  | zero => intro h; omega
  | succ k ih =>
    intro h
    rcases Nat.lt_or_ge k 3 with hk | hk
    · have hk3 : k + 1 = 3 := by omega
      rw [hk3]
      decide
    · rw [List.range_succ, List.filter_append, ih (by omega)]
      have hd : decide (k < 3) = false := decide_eq_false (by omega)
      simp [List.filter, hd]

/-- C3: the dirty-count protocol.  Every item and material starts with
`NumFramesDirty = 3`; each `Update` copies an item's transposed
`World`/`TexTransform` (and a material's constants) into its slot of the
current frame resource's buffer exactly when the counter is positive and then
decrements it, so every counter reads `3 - min k 3` after `k` cycles; each
item and material is copied in exactly cycles 0, 1, 2 — whose targets are the
three distinct frame resources 1, 2, 0 — and never afterwards; and from the
third cycle on all three frame resources hold the full written constant
buffers, unchanged thereafter. -/
theorem claim_C3 (m : ShapeMeshes) (mx my : ℤ) (n : Nat) (hn : 3 ≤ n) :
    (∀ k : Nat, (Nat.iterate updateCycle k (initAppState m mx my)).allRitems.map
        (fun e => e.numFramesDirty) = List.replicate 50 (3 - min k 3)) ∧
    (∀ k : Nat, (Nat.iterate updateCycle k (initAppState m mx my)).materials.map
        (fun p => p.2.numFramesDirty) = List.replicate 11 (3 - min k 3)) ∧
    (∀ i, i < 50 → objWriteSteps (initAppState m mx my) i n = [0, 1, 2]) ∧
    (∀ j, j < 11 → matWriteSteps (initAppState m mx my) j n = [0, 1, 2]) ∧
    [0, 1, 2].map (writeTargetAt (initAppState m mx my)) = [1, 2, 0] ∧
    (Nat.iterate updateCycle n (initAppState m mx my)).frameResources
      = List.replicate 3 (writtenFrameResource m) := by
  refine ⟨fun k => (iterate_dirty m mx my k).1, fun k => (iterate_dirty m mx my k).2.1,
    ?_, ?_, ?_, ?_⟩
  · intro i hi
    unfold objWriteSteps
    have hpq : ∀ k ∈ List.range n,
        ((((Nat.iterate updateCycle k (initAppState m mx my)).allRitems[i]?).map
          (fun e => decide (0 < e.numFramesDirty))).getD false) = decide (k < 3) := by
      intro k _
      have hd := (iterate_dirty m mx my k).1
      obtain ⟨e, he, hde⟩ : ∃ e,
          (Nat.iterate updateCycle k (initAppState m mx my)).allRitems[i]? = some e ∧
          e.numFramesDirty = 3 - min k 3 := by
        have h1 : ((Nat.iterate updateCycle k (initAppState m mx my)).allRitems.map
            (fun e => e.numFramesDirty))[i]? = some (3 - min k 3) := by
          rw [hd]
          exact List.getElem?_replicate_of_lt hi
        rw [List.getElem?_map] at h1
        exact Option.map_eq_some'.mp h1
      rw [he]
      show ((some e).map (fun e => decide (0 < e.numFramesDirty))).getD false
          = decide (k < 3)
      rw [Option.map_some', Option.getD_some, hde]
      exact decide_eq_decide.mpr (by omega)
    rw [List.filter_congr hpq, filter_range_lt3 n hn]
  · intro j hj
    unfold matWriteSteps
    have hpq : ∀ k ∈ List.range n,
        ((((Nat.iterate updateCycle k (initAppState m mx my)).materials[j]?).map
          (fun e => decide (0 < e.2.numFramesDirty))).getD false) = decide (k < 3) := by
      intro k _
      have hd := (iterate_dirty m mx my k).2.1
      obtain ⟨e, he, hde⟩ : ∃ e,
          (Nat.iterate updateCycle k (initAppState m mx my)).materials[j]? = some e ∧
          e.2.numFramesDirty = 3 - min k 3 := by
        have h1 : ((Nat.iterate updateCycle k (initAppState m mx my)).materials.map
            (fun p => p.2.numFramesDirty))[j]? = some (3 - min k 3) := by
          rw [hd]
          exact List.getElem?_replicate_of_lt hj
        rw [List.getElem?_map] at h1
        exact Option.map_eq_some'.mp h1
      rw [he]
      show ((some e).map (fun e => decide (0 < e.2.numFramesDirty))).getD false
          = decide (k < 3)
      rw [Option.map_some', Option.getD_some, hde]
      exact decide_eq_decide.mpr (by omega)
    rw [List.filter_congr hpq, filter_range_lt3 n hn]
  · have hidx := iterate_updateCycle_idx (initAppState m mx my) rfl
    simp only [List.map_cons, List.map_nil]
    unfold writeTargetAt
    rw [hidx 0, hidx 1, hidx 2]
    rfl
  · rw [(iterate_stable m mx my n hn).1, iterate3_frameResources]

/-- Witness for C3: the hypothesis `3 ≤ n` holds at `n = 3`, where the three
write targets are frame resources 1, 2 and 0. -/
theorem claim_C3_witness :
    3 ≤ 3 ∧ [0, 1, 2].map (writeTargetAt (initAppState sampleMeshes 0 0)) = [1, 2, 0] :=
  ⟨by decide, (claim_C3 sampleMeshes 0 0 3 (by decide)).2.2.2.2.1⟩

/-- Peeling one more element onto a prefix sum. -/
theorem sum_take_succ_getD (cs : List Nat) :
    ∀ k : Nat, (cs.take (k + 1)).sum = (cs.take k).sum + (cs[k]?).getD 0 := by
  induction cs with
  | nil => intro k; simp
  | cons c t ih =>
    intro k
    cases k with
    | zero => simp
    | succ j =>
      simp only [List.take_succ_cons, List.sum_cons, ih j, List.getElem?_cons_succ]
      omega

/-- A prefix sum never exceeds the total. -/
theorem sum_take_le (cs : List Nat) (k : Nat) : (cs.take k).sum ≤ cs.sum := by
  conv_rhs => rw [← List.take_append_drop k cs]
  rw [List.sum_append]
  omega

/-- Prefix sums are monotone in the cut point. -/
theorem sum_take_mono (cs : List Nat) : ∀ {k l : Nat}, k ≤ l →
    (cs.take k).sum ≤ (cs.take l).sum := by
  intro k l
  induction l with
  | zero =>
    intro h
    have hk : k = 0 := by omega
    rw [hk]
  | succ j ih =>
    intro h
    rcases Nat.lt_or_ge k (j + 1) with hlt | hge
    · have := ih (by omega)
      rw [sum_take_succ_getD]
      omega
    · have hk : k = j + 1 := by omega
      rw [hk]

/-- A position inside a prefix-summed range pins its index below the list
length. -/
theorem inSumRange_lt_length {cs : List Nat} {k j : Nat}
    (h : inSumRange cs k j) : k < cs.length := by
  unfold inSumRange at h
  rcases h with ⟨h1, h2⟩
  by_contra hk
  rw [List.getElem?_eq_none (by omega)] at h2
  simp at h2
  omega

/-- The prefix-summed ranges are pairwise disjoint. -/
theorem inSumRange_disjoint (cs : List Nat) :
    ∀ k l j : Nat, k ≠ l → ¬ (inSumRange cs k j ∧ inSumRange cs l j) := by
  have main : ∀ k l j : Nat, k < l → inSumRange cs k j → inSumRange cs l j → False := by
    intro k l j hkl hk hl
    unfold inSumRange at hk hl
    rcases hk with ⟨hk1, hk2⟩
    rcases hl with ⟨hl1, hl2⟩
    have h1 : (cs.take (k + 1)).sum = (cs.take k).sum + (cs[k]?).getD 0 :=
      sum_take_succ_getD cs k
    have h2 : (cs.take (k + 1)).sum ≤ (cs.take l).sum := sum_take_mono cs (by omega)
    omega
  intro k l j hkl hboth
  rcases hboth with ⟨hk, hl⟩
  rcases Nat.lt_or_ge k l with h | h
  · exact main k l j h hk hl
  · exact main l k j (by omega) hl hk

/-- The prefix-summed ranges exactly cover `[0, cs.sum)`. -/
theorem inSumRange_cover (cs : List Nat) :
    ∀ j : Nat, j < cs.sum ↔ ∃ k, inSumRange cs k j := by
  intro j
  constructor
  · revert j
    induction cs with
    | nil => intro j h; simp at h
    | cons c t ih =>
      intro j h
      rcases Nat.lt_or_ge j c with hj | hj
      · refine ⟨0, ?_, ?_⟩
        · simp
        · simpa using hj
      · rw [List.sum_cons] at h
        obtain ⟨k, hk⟩ := ih (j - c) (by omega)
        unfold inSumRange at hk
        rcases hk with ⟨hk1, hk2⟩
        refine ⟨k + 1, ?_, ?_⟩
        · simp only [List.take_succ_cons, List.sum_cons]
          omega
        · simp only [List.take_succ_cons, List.sum_cons, List.getElem?_cons_succ]
          omega
  · rintro ⟨k, hk⟩
    unfold inSumRange at hk
    rcases hk with ⟨hk1, hk2⟩
    have h1 := sum_take_succ_getD cs k
    have h2 := sum_take_le cs (k + 1)
    omega

/-- C10: `UpdateObjectCBs` and `UpdateMaterialCBs` write only the current
frame resource's own buffer and the `NumFramesDirty` counters: the other
frame resources are untouched, and so are every frame resource's fence, the
other buffer of the current frame resource, the items' `World`/`TexTransform`
and all other item fields, the material constants themselves, the camera, and
the current index. -/
theorem claim_C10 (s : AppState) (f : Nat) (hf : f ≠ s.currFrameResourceIndex) :
    ((updateObjectCBs s).frameResources[f]? = s.frameResources[f]?) ∧
    ((updateMaterialCBs s).frameResources[f]? = s.frameResources[f]?) ∧
    ((updateObjectCBs s).frameResources.map (fun fr => fr.fence)
      = s.frameResources.map (fun fr => fr.fence)) ∧
    ((updateObjectCBs s).frameResources.map (fun fr => fr.materialCB)
      = s.frameResources.map (fun fr => fr.materialCB)) ∧
    ((updateMaterialCBs s).frameResources.map (fun fr => fr.fence)
      = s.frameResources.map (fun fr => fr.fence)) ∧
    ((updateMaterialCBs s).frameResources.map (fun fr => fr.objectCB)
      = s.frameResources.map (fun fr => fr.objectCB)) ∧
    ((updateObjectCBs s).allRitems.map (fun e =>
        (e.world, e.texTransform, e.objCBIndex, e.mat, e.geo, e.primitiveTopology,
         e.indexCount, e.startIndexLocation, e.baseVertexLocation))
      = s.allRitems.map (fun e =>
        (e.world, e.texTransform, e.objCBIndex, e.mat, e.geo, e.primitiveTopology,
         e.indexCount, e.startIndexLocation, e.baseVertexLocation))) ∧
    ((updateObjectCBs s).materials = s.materials) ∧
    ((updateObjectCBs s).camera = s.camera) ∧
    ((updateObjectCBs s).currFrameResourceIndex = s.currFrameResourceIndex) ∧
    ((updateMaterialCBs s).allRitems = s.allRitems) ∧
    ((updateMaterialCBs s).materials.map (fun p =>
        (p.1, p.2.name, p.2.matCBIndex, p.2.diffuseSrvHeapIndex, p.2.diffuseAlbedo,
         p.2.fresnelR0, p.2.roughness, p.2.matTransform))
      = s.materials.map (fun p =>
        (p.1, p.2.name, p.2.matCBIndex, p.2.diffuseSrvHeapIndex, p.2.diffuseAlbedo,
         p.2.fresnelR0, p.2.roughness, p.2.matTransform))) ∧
    ((updateMaterialCBs s).camera = s.camera) ∧
    ((updateMaterialCBs s).currFrameResourceIndex = s.currFrameResourceIndex) := by
  cases h : s.frameResources[s.currFrameResourceIndex]? with
  | none =>
    rw [updateObjectCBs_none s h, updateMaterialCBs_none s h]
    exact ⟨rfl, rfl, rfl, rfl, rfl, rfl, rfl, rfl, rfl, rfl, rfl, rfl, rfl, rfl⟩
  | some fr =>
    rw [updateObjectCBs_eq s fr h, updateMaterialCBs_eq s fr h]
    have hne : s.currFrameResourceIndex ≠ f := fun hx => hf hx.symm
    have hfence : ∀ (l : List FrameResource) (x : FrameResource),
        l[s.currFrameResourceIndex]? = some x →
        ∀ g : FrameResource → Nat,
          ((l.set s.currFrameResourceIndex x).map g) = l.map g → True := fun _ _ _ _ _ => trivial
    refine ⟨?_, ?_, ?_, ?_, ?_, ?_, ?_, rfl, rfl, rfl, rfl, ?_, rfl, rfl⟩
    · exact List.getElem?_set_ne hne
    · exact List.getElem?_set_ne hne
    · rw [List.map_set]
      exact list_set_of_getElem _ _ _ (by rw [List.getElem?_map, h]; rfl)
    · rw [List.map_set]
      exact list_set_of_getElem _ _ _ (by rw [List.getElem?_map, h]; rfl)
    · rw [List.map_set]
      exact list_set_of_getElem _ _ _ (by rw [List.getElem?_map, h]; rfl)
    · rw [List.map_set]
      exact list_set_of_getElem _ _ _ (by rw [List.getElem?_map, h]; rfl)
    · rw [List.map_map]
      rfl
    · rw [List.map_map]
      rfl

/-- Witness for C10: the hypothesis holds at the sample state with `f = 1`,
and the theorem applies there. -/
theorem claim_C10_witness :
    (1 ≠ sampleApp.currFrameResourceIndex) ∧
    ((updateObjectCBs sampleApp).frameResources[1]? = sampleApp.frameResources[1]?) ∧
    ((updateObjectCBs sampleApp).currFrameResourceIndex
      = sampleApp.currFrameResourceIndex) :=
  ⟨by decide,
   (claim_C10 sampleApp 1 (by decide)).1,
   (claim_C10 sampleApp 1 (by decide)).2.2.2.2.2.2.2.2.2.1⟩

/-- Reading one entry of the prefix-sum table. -/
theorem sumsBefore_getElem (cs : List Nat) (k : Nat) (h : k < cs.length) :
    (sumsBefore cs)[k]? = some ((cs.take k).sum) := by
  unfold sumsBefore
  rw [List.getElem?_map, List.getElem?_range h]
  rfl

set_option maxHeartbeats 1600000 in
/-- C6: the offset bookkeeping of `BuildShapeGeometry` is exact prefix
summation over the fixed concatenation order: each submesh's
`StartIndexLocation` (resp. `BaseVertexLocation`) is the sum of the index
(resp. vertex) counts of all earlier meshes; the buffers have exactly the
total sizes; and the fourteen index ranges
`[StartIndexLocation, StartIndexLocation + IndexCount)` are pairwise disjoint
and exactly cover the concatenated index buffer, as do the vertex regions the
vertex buffer. -/
theorem claim_C6 (m : ShapeMeshes) :
    ((shapeGeoOf m).drawArgs.map (fun p => p.2.startIndexLocation)
      = sumsBefore ((meshList m).map (fun d => d.indexCount))) ∧
    ((shapeGeoOf m).drawArgs.map (fun p => p.2.baseVertexLocation)
      = sumsBefore ((meshList m).map (fun d => d.vertexCount))) ∧
    ((shapeGeoOf m).drawArgs.map (fun p => p.2.indexCount)
      = (meshList m).map (fun d => d.indexCount)) ∧
    ((shapeGeoOf m).indexBufferCount = ((meshList m).map (fun d => d.indexCount)).sum) ∧
    ((shapeGeoOf m).vertexBufferCount = ((meshList m).map (fun d => d.vertexCount)).sum) ∧
    (∀ k l j : Nat, k ≠ l →
      ¬ (inDrawRange (shapeGeoOf m) k j ∧ inDrawRange (shapeGeoOf m) l j)) ∧
    (∀ j : Nat, j < (shapeGeoOf m).indexBufferCount
      ↔ ∃ k, inDrawRange (shapeGeoOf m) k j) ∧
    (∀ k l j : Nat, k ≠ l →
      ¬ (inSumRange ((meshList m).map (fun d => d.vertexCount)) k j
         ∧ inSumRange ((meshList m).map (fun d => d.vertexCount)) l j)) ∧
    (∀ j : Nat, j < (shapeGeoOf m).vertexBufferCount
      ↔ ∃ k, inSumRange ((meshList m).map (fun d => d.vertexCount)) k j) := by
  have hA : (shapeGeoOf m).drawArgs.map (fun p => p.2.startIndexLocation)
      = sumsBefore ((meshList m).map (fun d => d.indexCount)) := by
    unfold sumsBefore
    rw [show ((meshList m).map (fun d => d.indexCount)).length = 14 from rfl,
      show List.range 14 = [0,1,2,3,4,5,6,7,8,9,10,11,12,13] from rfl]
    simp only [shapeGeoOf, buildShapeGeometry, meshList, List.map_cons, List.map_nil,
      List.take_succ_cons, List.take_zero, List.sum_cons, List.sum_nil,
      List.cons.injEq, and_true]
    repeat' apply And.intro
    all_goals first | trivial | omega
  have hB : (shapeGeoOf m).drawArgs.map (fun p => p.2.baseVertexLocation)
      = sumsBefore ((meshList m).map (fun d => d.vertexCount)) := by
    unfold sumsBefore
    rw [show ((meshList m).map (fun d => d.vertexCount)).length = 14 from rfl,
      show List.range 14 = [0,1,2,3,4,5,6,7,8,9,10,11,12,13] from rfl]
    simp only [shapeGeoOf, buildShapeGeometry, meshList, List.map_cons, List.map_nil,
      List.take_succ_cons, List.take_zero, List.sum_cons, List.sum_nil,
      List.cons.injEq, and_true]
    repeat' apply And.intro
    all_goals first | trivial | omega
  have hC : (shapeGeoOf m).drawArgs.map (fun p => p.2.indexCount)
      = (meshList m).map (fun d => d.indexCount) := rfl
  have hD : (shapeGeoOf m).indexBufferCount
      = ((meshList m).map (fun d => d.indexCount)).sum := by
    show _ = ((meshList m).map (fun d => d.indexCount)).sum
    simp only [meshList, List.map_cons, List.map_nil, List.sum_cons, List.sum_nil]
    show m.box.indexCount + m.grid.indexCount + m.sphere.indexCount
        + m.cylinder.indexCount + m.diamond.indexCount + m.wedge.indexCount
        + m.octahedron.indexCount + m.triangularPrism.indexCount + m.hexagon.indexCount
        + m.octagon.indexCount + m.cone.indexCount + m.pyramid.indexCount
        + m.container.indexCount + m.star.indexCount = _
    omega
  have hE : (shapeGeoOf m).vertexBufferCount
      = ((meshList m).map (fun d => d.vertexCount)).sum := by
    show _ = ((meshList m).map (fun d => d.vertexCount)).sum
    simp only [meshList, List.map_cons, List.map_nil, List.sum_cons, List.sum_nil]
    show m.box.vertexCount + m.grid.vertexCount + m.sphere.vertexCount
        + m.cylinder.vertexCount + m.diamond.vertexCount + m.wedge.vertexCount
        + m.octahedron.vertexCount + m.triangularPrism.vertexCount + m.hexagon.vertexCount
        + m.octagon.vertexCount + m.cone.vertexCount + m.pyramid.vertexCount
        + m.container.vertexCount + m.star.vertexCount = _
    omega
  have hbridge : ∀ k j : Nat, inDrawRange (shapeGeoOf m) k j ↔
      inSumRange ((meshList m).map (fun d => d.indexCount)) k j := by
    intro k j
    cases hk : (shapeGeoOf m).drawArgs[k]? with
    | none =>
      have hk14 : 14 ≤ k := by
        have h := List.getElem?_eq_none_iff.mp hk
        rw [show (shapeGeoOf m).drawArgs.length = 14 from rfl] at h
        exact h
      constructor
      · intro hd
        unfold inDrawRange at hd
        rw [hk] at hd
        exact hd.elim
      · intro hs
        have hlt := inSumRange_lt_length hs
        rw [show ((meshList m).map (fun d => d.indexCount)).length = 14 from rfl] at hlt
        omega
    | some p =>
      have hklt : k < 14 := by
        by_contra hge
        rw [List.getElem?_eq_none
          (by rw [show (shapeGeoOf m).drawArgs.length = 14 from rfl]; omega)] at hk
        simp at hk
      have hstart : p.2.startIndexLocation
          = ((((meshList m).map (fun d => d.indexCount)).take k).sum) := by
        have h1 : ((shapeGeoOf m).drawArgs.map (fun q => q.2.startIndexLocation))[k]?
            = some p.2.startIndexLocation := by
          rw [List.getElem?_map, hk]
          rfl
        rw [hA, sumsBefore_getElem _ _
          (by rw [show ((meshList m).map (fun d => d.indexCount)).length = 14 from rfl]
              omega)] at h1
        exact (Option.some.inj h1).symm
      have hcount : ((meshList m).map (fun d => d.indexCount))[k]?
          = some p.2.indexCount := by
        rw [← hC, List.getElem?_map, hk]
        rfl
      unfold inDrawRange inSumRange
      rw [hk]
      show (p.2.startIndexLocation ≤ j ∧ j < p.2.startIndexLocation + p.2.indexCount) ↔ _
      rw [hstart, hcount, Option.getD_some]
  refine ⟨hA, hB, hC, hD, hE, ?_, ?_, ?_, ?_⟩
  · intro k l j hkl hboth
    rcases hboth with ⟨h1, h2⟩
    exact inSumRange_disjoint _ k l j hkl ⟨(hbridge k j).mp h1, (hbridge l j).mp h2⟩
  · intro j
    rw [hD]
    exact (inSumRange_cover _ j).trans (exists_congr (fun k => (hbridge k j).symm))
  · exact inSumRange_disjoint _
  · intro j
    rw [hE]
    exact inSumRange_cover _ j

end LitColumns
